import Mathlib

/-!
Verification development for the voice-tutoring backend's quota ledger,
session lifecycle controller and retrieval engine.  The definitions below
are a shallow embedding of the Python sources in apps/agent/app
(billing.py, main.py, rag.py, agent_worker.py, prompts.py): SQL tables
become lists of row structures, timestamps become integers, and each
function is translated statement by statement.  Python floor division
is Int.fdiv; SQL NULL becomes Option.
-/

/-- Row of the profiles table (only the columns the quota ledger reads). -/
structure ProfileRow where
  id : String
  account_type : String
deriving DecidableEq

/-- Row of the parent_student_links table. -/
structure LinkRow where
  parent_id : String
  student_id : String
deriving DecidableEq

/-- Row of the sessions table.  started_at and ended_at are epoch seconds;
NULL columns are Option. -/
structure SessionRow where
  id : String
  student_id : String
  enrolment_id : Option Int
  topic_id : Int
  status : String
  started_at : Option Int
  ended_at : Option Int
  duration_seconds : Option Int
deriving DecidableEq

/-- Row of subscriptions joined with plans as in the billing queries:
monthly_minutes is the LEFT-JOINed plans.monthly_minutes (NULL when the
plan is missing or has no allowance). -/
structure SubscriptionRow where
  profile_id : String
  status : String
  current_period_start : Option Int
  current_period_end : Option Int
  monthly_minutes : Option Int
  updated_at : Int
deriving DecidableEq

/-- Row of the usage_credits table. -/
structure CreditRow where
  id : Int
  profile_id : String
  minutes_remaining : Int
  expires_at : Option Int
  created_at : Int
deriving DecidableEq

/-- Payload produced by _summarize_transcript_sync. -/
structure SummaryPayload where
  summaryMd : String
  keyTakeaways : List String
  citations : List String
deriving DecidableEq

/-- One repeat-flag item of the progress analysis payload. -/
structure RepeatPayload where
  concept : String
  reason : String
  priority : String
deriving DecidableEq

/-- Payload produced by _analyze_progress_sync.  The Python field named
after the repeated concepts is called repeatItems here because of Lean
keywords. -/
structure ProgressPayload where
  confidenceScore : ℚ
  strengths : List String
  improvements : List String
  focus : List String
  repeatItems : List RepeatPayload
deriving DecidableEq

/-- Row of the progress_snapshots table. -/
structure ProgressSnapshotRow where
  student_id : String
  enrolment_id : Int
  topic_id : Int
  payload : ProgressPayload
deriving DecidableEq

/-- Row of the repeat_flags table. -/
structure RepeatFlagRow where
  student_id : String
  enrolment_id : Int
  topic_id : Int
  concept : String
  reason : String
  priority : String
  status : String
deriving DecidableEq

/-- Row of tutor_configs LEFT-JOINed with tutor_personas, as read by
_load_tutor_runtime_context (persona columns may be NULL). -/
structure TutorConfigRow where
  student_id : String
  enrolment_id : Int
  name : Option String
  personality_prompt : Option String
  tts_voice_model : Option String
  tts_speed : Option String
deriving DecidableEq

/-- The relational store: one list per table, in insertion (creation)
order.  usage_credits being kept in creation order makes an ORDER BY
created_at ASC scan coincide with the list order; the tables are
append-only except through the operations embedded below. -/
structure DB where
  profiles : List ProfileRow
  students : List String
  parent_student_links : List LinkRow
  sessions : List SessionRow
  subscriptions : List SubscriptionRow
  usage_credits : List CreditRow
  session_summaries : List (String × SummaryPayload)
  progress_snapshots : List ProgressSnapshotRow
  repeat_flags : List RepeatFlagRow
  tutor_configs : List TutorConfigRow
  session_transcripts : List (String × String)
deriving DecidableEq

/-- Result record of the quota check, mirroring the QuotaResult dataclass
of billing.py. -/
structure QuotaResult where
  allowed : Bool
  reason : Option String
  remaining_minutes : Int
  free_minutes_remaining : Int
  subscription_minutes_remaining : Int
  credits_minutes_remaining : Int
  billing_profile_id : Option String
deriving DecidableEq

/-- Filter on sessions.started_at used by _minutes_used_for_students:
when a period bound is supplied the SQL comparison excludes NULL
started_at; without bounds every session row passes. -/
def startedAtInPeriod (started_at ps pe : Option Int) : Bool :=
  (match ps with
   | none => true
   | some p => match started_at with
     | none => false
     | some t => decide (p ≤ t)) &&
  (match pe with
   | none => true
   | some q => match started_at with
     | none => false
     | some t => decide (t < q))

/-- Embeds _minutes_used_for_students (billing.py): sums
COALESCE(duration_seconds, 0) over sessions of the given students whose
started_at passes the optional period filters, floor-divides the total
seconds by 60 and clamps at 0.  There is no filter on session status. -/
def minutes_used_for_students (student_ids : List String) (period_start period_end : Option Int)
    (db : DB) : Int :=
  if student_ids.isEmpty then 0
  else
    let seconds :=
      ((db.sessions.filter
        (fun s => student_ids.contains s.student_id &&
          startedAtInPeriod s.started_at period_start period_end)).map
        (fun s => s.duration_seconds.getD 0)).sum
    max 0 (Int.fdiv seconds 60)

/-- Embeds _profile_student_ids (billing.py). -/
def profile_student_ids (profile_id : String) (db : DB) : List String :=
  match db.profiles.find? (fun p => p.id == profile_id) with
  | none => []
  | some p =>
    if p.account_type == "student" then
      if db.students.contains profile_id then [profile_id] else []
    else
      (db.parent_student_links.filter (fun l => l.parent_id == profile_id)).map
        (fun l => l.student_id)

/-- Embeds _parent_profile_ids_for_student (billing.py). -/
def parent_profile_ids_for_student (student_id : String) (db : DB) : List String :=
  (db.parent_student_links.filter (fun l => l.student_id == student_id)).map
    (fun l => l.parent_id)

/-- The subscription statuses the ledger treats as in force
(billing.py: status IN ('active','trialing','past_due')). -/
def subscriptionStatusActive (st : String) : Bool :=
  st == "active" || st == "trialing" || st == "past_due"

/-- Embeds _active_subscription_for_profile (billing.py): the matching
subscription with the greatest updated_at (ORDER BY updated_at DESC
LIMIT 1; the fold keeps the first row among equal timestamps). -/
def active_subscription_for_profile (profile_id : String) (db : DB) : Option SubscriptionRow :=
  match db.subscriptions.filter
      (fun s => s.profile_id == profile_id && subscriptionStatusActive s.status) with
  | [] => none
  | s :: rest => some (rest.foldl (fun best c => if best.updated_at < c.updated_at then c else best) s)

/-- The expiry half of the usage_credits eligibility filter:
expires_at IS NULL OR expires_at > NOW(). -/
def creditExpiryOk (now : Int) (c : CreditRow) : Bool :=
  match c.expires_at with
  | none => true
  | some e => decide (now < e)

/-- Eligibility filter of the usage_credits queries:
minutes_remaining > 0 AND (expires_at IS NULL OR expires_at > NOW()). -/
def creditEligible (now : Int) (c : CreditRow) : Bool :=
  decide (0 < c.minutes_remaining) && creditExpiryOk now c

/-- The UPDATE statement of the consumption loop: a credit row with its
minutes_remaining replaced. -/
def updateRem (c : CreditRow) (v : Int) : CreditRow :=
  { c with minutes_remaining := v }

/-- Embeds _credits_remaining_for_profile (billing.py): the sum of
minutes_remaining over the profile's eligible credit grants. -/
def credits_remaining_for_profile (profile_id : String) (now : Int) (db : DB) : Int :=
  ((db.usage_credits.filter
    (fun c => c.profile_id == profile_id && creditEligible now c)).map
    (fun c => c.minutes_remaining)).sum

/-- The grant-walking loop of _consume_credits: scans the grants in
stored (creation) order, deducts min(remaining, available) from each
eligible grant of the payer and stops once nothing remains to consume.
Returns the leftover amount and the updated grant list. -/
def consumeCreditsList (profile_id : String) (now : Int) :
    Int → List CreditRow → Int × List CreditRow
  | r, [] => (r, [])
  | r, c :: cs =>
    if c.profile_id == profile_id && creditEligible now c then
      if r ≤ 0 then (r, c :: cs)
      else
        let d := min r c.minutes_remaining
        let rest := consumeCreditsList profile_id now (r - d) cs
        (rest.1, updateRem c (c.minutes_remaining - d) :: rest.2)
    else
      let rest := consumeCreditsList profile_id now r cs
      (rest.1, c :: rest.2)

/-- Embeds _consume_credits (billing.py). -/
def consume_credits (profile_id : String) (minutes_to_consume : Int) (now : Int) (db : DB) : DB :=
  if minutes_to_consume ≤ 0 then db
  else
    { db with usage_credits := (consumeCreditsList profile_id now minutes_to_consume db.usage_credits).2 }

/-- The free_remaining local of _quota_for_profile (billing.py): the
free tier from the lifetime usage sum with no period filter, computed
only when include_free_tier holds. -/
def quota_free_remaining (profile_id : String) (include_free_tier : Bool) (db : DB) : Int :=
  if include_free_tier then
    max 0 (60 - minutes_used_for_students (profile_student_ids profile_id db) none none db)
  else 0

/-- The subscription_remaining local of _quota_for_profile (billing.py):
computed only when an active-status subscription with a positive monthly
allowance exists (int(row or 0) becomes getD 0). -/
def quota_subscription_remaining (profile_id : String) (db : DB) : Int :=
  match active_subscription_for_profile profile_id db with
  | none => 0
  | some srow =>
    let monthly_minutes := srow.monthly_minutes.getD 0
    if 0 < monthly_minutes then
      max 0 (monthly_minutes -
        minutes_used_for_students (profile_student_ids profile_id db)
          srow.current_period_start srow.current_period_end db)
    else 0

/-- Embeds _quota_for_profile (billing.py). -/
def quota_for_profile (profile_id : String) (include_free_tier : Bool) (now : Int)
    (db : DB) : QuotaResult :=
  let free_remaining := quota_free_remaining profile_id include_free_tier db
  let subscription_remaining := quota_subscription_remaining profile_id db
  let credits_remaining := credits_remaining_for_profile profile_id now db
  let remaining := free_remaining + subscription_remaining + credits_remaining
  if 0 < remaining then
    ⟨true, none, remaining, free_remaining, subscription_remaining, credits_remaining,
      some profile_id⟩
  else
    ⟨false, some "quota_exceeded", 0, free_remaining, subscription_remaining,
      credits_remaining, some profile_id⟩

/-- A left fold reproducing Python max(xs, key=f): the first element
with the maximal key wins ties. -/
def pyMaxBy {α : Type} (f : α → Int) (h : α) (t : List α) : α :=
  t.foldl (fun best c => if f best < f c then c else best) h

/-- The candidate QuotaResult list built by check_subscription_quota:
the student's own profile first, then every linked parent, the free tier
included exactly for the student's own id. -/
def check_candidate_quotas (student_id : String) (prow : ProfileRow) (now : Int)
    (db : DB) : List QuotaResult :=
  (prow.id :: parent_profile_ids_for_student student_id db).map
    (fun pid => quota_for_profile pid (pid == prow.id) now db)

/-- Embeds check_subscription_quota (billing.py). -/
def check_subscription_quota (student_id : String) (now : Int) (db : DB) : QuotaResult :=
  match db.profiles.find? (fun p => p.id == student_id) with
  | none => ⟨false, some "profile_not_found", 0, 0, 0, 0, none⟩
  | some prow =>
    let candidates := check_candidate_quotas student_id prow now db
    match candidates.filter (fun c => c.allowed) with
    | a :: rest => pyMaxBy (fun c => c.remaining_minutes) a rest
    | [] =>
      match candidates with
      | c :: rest => pyMaxBy (fun c => c.remaining_minutes) c rest
      | [] => ⟨false, some "quota_exceeded", 0, 0, 0, 0, none⟩

/-- The best_credit_profile / best_credit_minutes selection loop of
consume_quota_minutes (billing.py): keeps the first candidate whose
credit remainder strictly exceeds the best seen so far, starting
from 0. -/
def best_credit_candidate (now : Int) (db : DB) (candidate_profile_ids : List String) :
    Option String × Int :=
  candidate_profile_ids.foldl
    (fun acc pid =>
      let remaining := credits_remaining_for_profile pid now db
      if acc.2 < remaining then (some pid, remaining) else acc)
    ((none : Option String), (0 : Int))

/-- Embeds consume_quota_minutes (billing.py): a no-op when the amount is
nonpositive or any candidate payer has an active-status subscription;
otherwise the best-credit candidate is selected and consumed from. -/
def consume_quota_minutes (student_id : String) (minutes_consumed : Int) (now : Int)
    (db : DB) : DB :=
  if minutes_consumed ≤ 0 then db
  else
    let candidate_profile_ids := student_id :: parent_profile_ids_for_student student_id db
    if candidate_profile_ids.any (fun pid => (active_subscription_for_profile pid db).isSome) then
      db
    else
      let best := best_credit_candidate now db candidate_profile_ids
      match best.1 with
      | some p => if 0 < best.2 then consume_credits p minutes_consumed now db else db
      | none => db

/-- Updates the session row with the given id in place, as the UPDATE
statements of main.py do. -/
def updateSessionRow (session_id : String) (f : SessionRow → SessionRow) (db : DB) : DB :=
  { db with sessions := db.sessions.map (fun s => if s.id == session_id then f s else s) }

/-- The status of a session as observed through a lookup by id. -/
def session_status_of (session_id : String) (db : DB) : Option String :=
  (db.sessions.find? (fun s => s.id == session_id)).map (fun s => s.status)

/-- The stored duration of a session as observed through a lookup by id. -/
def session_duration_of (session_id : String) (db : DB) : Option (Option Int) :=
  (db.sessions.find? (fun s => s.id == session_id)).map (fun s => s.duration_seconds)

/-- Upsert into session_summaries keyed by session id (INSERT ... ON
CONFLICT (session_id) DO UPDATE). -/
def upsertSummary (session_id : String) (p : SummaryPayload) (db : DB) : DB :=
  if db.session_summaries.any (fun kv => kv.1 == session_id) then
    { db with session_summaries :=
        db.session_summaries.map (fun kv => if kv.1 == session_id then (kv.1, p) else kv) }
  else
    { db with session_summaries := db.session_summaries ++ [(session_id, p)] }

/-- The consumption amount computed at the end of _end_session_sync
(main.py): (duration_seconds + 59) // 60. -/
def end_session_consume_amount (duration_seconds : Int) : Int :=
  Int.fdiv (duration_seconds + 59) 60

/-- Environment of one _end_session_sync run: the wall clock and the
outcome of each fallible collaborator call.  generation_ok is false when
the summarization/progress model calls raise; the three insert flags are
false when the corresponding statement of the post-session transaction
raises (psycopg rolls the whole transaction back in that case). -/
structure SessionEndEnv where
  now : Int
  generation_ok : Bool
  summary_upsert_ok : Bool
  progress_insert_ok : Bool
  repeat_insert_ok : Bool
  summary_payload : SummaryPayload
  progress_payload : ProgressPayload
deriving DecidableEq

/-- The final duration computed by _end_session_sync (main.py):
GREATEST(0, COALESCE(EXTRACT(EPOCH FROM (NOW() - started_at)), 0)). -/
def endSessionDuration (env : SessionEndEnv) (row : SessionRow) : Int :=
  max 0 (match row.started_at with
         | none => 0
         | some t => env.now - t)

/-- The first UPDATE of _end_session_sync: status 'ended', ended_at,
final duration. -/
def endSessionTxn1Update (now duration : Int) (s : SessionRow) : SessionRow :=
  { s with status := "ended", ended_at := some now, duration_seconds := some duration }

/-- The status UPDATE to 'summarized' inside the post-session
transaction. -/
def endSessionSummarizeUpdate (s : SessionRow) : SessionRow :=
  { s with status := "summarized" }

/-- The writes of the post-session transaction of _end_session_sync
applied in statement order to the committed first-transaction state:
summary upsert, status 'summarized', and (when the session has an
enrolment) the progress-snapshot insert and the repeat-flag inserts. -/
def endSessionTxn2Apply (env : SessionEndEnv) (session_id student_id : String)
    (row : SessionRow) (db1 : DB) : DB :=
  let db2a := upsertSummary session_id env.summary_payload db1
  let db2b := updateSessionRow session_id endSessionSummarizeUpdate db2a
  match row.enrolment_id with
  | none => db2b
  | some eid =>
    let newFlags : List RepeatFlagRow :=
      env.progress_payload.repeatItems.map
        (fun it => ⟨student_id, eid, row.topic_id, it.concept, it.reason,
                     it.priority, "active"⟩)
    let snapshot : ProgressSnapshotRow :=
      ⟨student_id, eid, row.topic_id, env.progress_payload⟩
    let withSnapshot :=
      { db2b with progress_snapshots := db2b.progress_snapshots ++ [snapshot] }
    { withSnapshot with repeat_flags := withSnapshot.repeat_flags ++ newFlags }

/-- Embeds _end_session_sync (main.py).  Returns the handler outcome
(ok false models the return False that the endpoint maps to 404, error
models an exception escaping the worker), the resulting database, and
the list of session-status values committed for this session in order.
The first transaction (status 'ended', ended_at, clamped duration)
commits on its own; the summary upsert, the 'summarized' status update,
the progress-snapshot insert and the repeat-flag inserts share the
second transaction, which rolls back as a whole if any of its statements
fails; quota consumption runs only after that transaction commits. -/
def end_session_sync (env : SessionEndEnv) (session_id student_id : String) (db : DB) :
    Except String Bool × DB × List String :=
  match db.sessions.find? (fun s => s.id == session_id) with
  | none => (Except.ok false, db, [])
  | some row =>
    if row.student_id ≠ student_id then (Except.ok false, db, [])
    else
      let duration := endSessionDuration env row
      let db1 := updateSessionRow session_id (endSessionTxn1Update env.now duration) db
      if ¬ env.generation_ok then
        (Except.error "summary_generation_failed", db1, ["ended"])
      else
        let progress_runs := row.enrolment_id.isSome
        let repeat_runs := row.enrolment_id.isSome && !env.progress_payload.repeatItems.isEmpty
        if ¬ env.summary_upsert_ok ∨ (progress_runs ∧ ¬ env.progress_insert_ok) ∨
            (repeat_runs ∧ ¬ env.repeat_insert_ok) then
          (Except.error "post_session_write_failed", db1, ["ended"])
        else
          let db2 := endSessionTxn2Apply env session_id student_id row db1
          let db3 := consume_quota_minutes student_id (end_session_consume_amount duration)
            env.now db2
          (Except.ok true, db3, ["ended", "summarized"])

/-- The status value written by the session INSERT of _create_session_sync
(main.py): every session starts 'pending'. -/
def create_session_insert_status : String := "pending"

/-- Rank of a lifecycle status in the documented order. -/
def session_status_rank (st : String) : Int :=
  if st == "pending" then 0
  else if st == "live" then 1
  else if st == "ended" then 2
  else if st == "summarized" then 3
  else 4

/-- The parameter names accepted by run_agent_session
(agent_worker.py): five positional parameters followed by four optional
keyword-only model overrides. -/
def run_agent_session_params : List String :=
  ["room_name", "token", "session_id", "course_id", "topic_id",
   "agent_openai_model", "deepgram_stt_model", "deepgram_tts_model",
   "silence_nudge_after_s"]

/-- The keyword-argument names passed to run_agent_session by
_start_agent_join (main.py). -/
def start_agent_join_call_kwargs : List String :=
  ["room_name", "token", "session_id", "course_id", "topic_id",
   "student_id", "enrolment_id", "tutor_name", "personality_prompt",
   "tutor_voice_model", "tutor_tts_speed", "repeat_flags", "recommended_focus",
   "agent_openai_model", "deepgram_stt_model", "deepgram_tts_model",
   "silence_nudge_after_s"]

/-- Whether the run_agent_session call of _start_agent_join binds: Python
raises TypeError at the call when a passed keyword is not among the
function's parameters. -/
def run_agent_session_call_binds : Bool :=
  start_agent_join_call_kwargs.all (fun a => run_agent_session_params.contains a)

/-- Embeds _load_tutor_runtime_context (main.py): the tutor config joined
with its persona, the active repeat flags and the latest recommended
focus for the enrolment; everything empty when the session has no
enrolment. -/
def load_tutor_runtime_context (student_id : String) (enrolment_id : Option Int) (db : DB) :
    Option TutorConfigRow × List RepeatFlagRow × List String :=
  match enrolment_id with
  | none => (none, [], [])
  | some eid =>
    let tutor_row := db.tutor_configs.find?
      (fun t => t.student_id == student_id && t.enrolment_id == eid)
    let flags := db.repeat_flags.filter
      (fun f => f.student_id == student_id && f.enrolment_id == eid && f.status == "active")
    let focus_row := (db.progress_snapshots.filter
      (fun p => p.student_id == student_id && p.enrolment_id == eid)).getLast?
    (tutor_row, flags, match focus_row with
                       | none => []
                       | some p => p.payload.focus)

/-- Python-style or-default on an optional string: the empty string is
falsy, so it also falls through to the default. -/
def strOrDefault (o : Option String) (d : String) : String :=
  match o with
  | none => d
  | some s => if s == "" then d else s

/-- The persona fields of the JoinRequest that start_session_agent builds
for the agent handoff (main.py), with the documented defaults applied. -/
structure JoinPersona where
  tutorName : String
  personalityPrompt : String
  tutorVoiceModel : String
  tutorTtsSpeed : String
deriving DecidableEq

/-- The persona part of the JoinRequest built by start_session_agent:
each field falls back as in the source, the voice model falling back
first to the request's deepgramTtsModel and then to the default. -/
def start_agent_join_persona (cfg : Option TutorConfigRow)
    (payload_deepgram_tts_model : Option String) : JoinPersona :=
  ⟨strOrDefault (cfg.bind (fun c => c.name)) "TutorBot",
   strOrDefault (cfg.bind (fun c => c.personality_prompt)) "Be warm, concise, and Socratic.",
   strOrDefault (cfg.bind (fun c => c.tts_voice_model))
     (strOrDefault payload_deepgram_tts_model "aura-2-draco-en"),
   strOrDefault (cfg.bind (fun c => c.tts_speed)) "1.0"⟩

/-- Environment of a start-agent request: wall clock and the presence of
the required external configuration checked by _start_agent_join. -/
structure StartAgentEnv where
  now : Int
  livekit_ok : Bool
  agent_config_ok : Bool
deriving DecidableEq

/-- The request body of POST /api/session/start-agent (the fields the
embedded behaviour depends on). -/
structure StartAgentRequest where
  sessionId : String
  studentId : String
  deepgramTtsModel : Option String
deriving DecidableEq

/-- Embeds _get_session_by_id_and_student_sync (main.py). -/
def get_session_by_id_and_student (session_id student_id : String) (db : DB) :
    Option SessionRow :=
  db.sessions.find? (fun s => s.id == session_id && s.student_id == student_id)

/-- Embeds the start_session_agent endpoint (main.py) after request
authentication: a missing or unowned session fails with
session_not_found; otherwise the tutor runtime context is loaded and
_start_agent_join is invoked, which checks the external configuration
and then calls run_agent_session — a call that cannot bind because
main.py passes keyword arguments the agent_worker.py signature does not
accept, so Python raises TypeError before the background task is
created and before the status update to 'live' is reached.  Returns the
handler outcome, the database, and the committed status writes. -/
def start_session_agent (env : StartAgentEnv) (req : StartAgentRequest) (db : DB) :
    Except String Unit × DB × List String :=
  match get_session_by_id_and_student req.sessionId req.studentId db with
  | none => (Except.error "session_not_found", db, [])
  | some row =>
    let ctx := load_tutor_runtime_context req.studentId row.enrolment_id db
    let _persona := start_agent_join_persona ctx.1 req.deepgramTtsModel
    if ¬ env.livekit_ok then (Except.error "livekit_credentials_missing", db, [])
    else if ¬ env.agent_config_ok then (Except.error "missing_agent_env_vars", db, [])
    else if ¬ run_agent_session_call_binds then
      (Except.error "type_error_unexpected_keyword_argument", db, [])
    else
      (Except.ok (),
       updateSessionRow req.sessionId
         (fun s => { s with status := "live", started_at := some env.now }) db,
       ["live"])

/-- Row of the documents table (the columns retrieve_chunks reads). -/
structure DocumentRow where
  id : Int
  title : String
  source_path : String
deriving DecidableEq

/-- Row of the chunks table; the embedding vector is a list of
rationals (the external embedding service supplies its entries). -/
structure ChunkRow where
  id : Int
  document_id : Int
  course_id : Int
  topic_id : Int
  content : String
  embedding : List ℚ
deriving DecidableEq

/-- One retrieved passage as returned by retrieve_chunks (rag.py). -/
structure RetrievedChunk where
  chunk_id : Int
  doc_title : String
  content : String
  source_path : String
  similarity : ℚ
deriving DecidableEq

/-- The tables the retrieval engine reads. -/
structure RagDB where
  chunks : List ChunkRow
  documents : List DocumentRow
deriving DecidableEq

/-- External collaborators of the retrieval engine: the embedding
service (db.embedding_for) and the pgvector cosine-distance operator. -/
structure RagEnv where
  embedding_for : String → List ℚ
  vec_dist : List ℚ → List ℚ → ℚ

/-- Insertion of an element into a list sorted by a rational key,
keeping earlier-inserted elements first among equal keys. -/
def insertByKey {α : Type} (key : α → ℚ) (a : α) : List α → List α
  | [] => [a]
  | b :: bs => if key a < key b then a :: b :: bs else b :: insertByKey key a bs

/-- Insertion sort by a rational key (ascending), used for the ORDER BY
of the nearest-neighbour query. -/
def sortByKey {α : Type} (key : α → ℚ) : List α → List α
  | [] => []
  | a :: as => insertByKey key a (sortByKey key as)

/-- Embeds retrieve_chunks (rag.py): join chunks with documents, restrict
to the (course, topic) scope, order by ascending distance between the
query embedding and the chunk embedding, keep at most k rows and report
similarity = 1 - distance. -/
def retrieve_chunks (env : RagEnv) (query : String) (course_id topic_id : Int) (k : Nat)
    (db : RagDB) : List RetrievedChunk :=
  let qvec := env.embedding_for query
  let rows := db.chunks.filterMap
    (fun c =>
      if c.course_id == course_id && c.topic_id == topic_id then
        (db.documents.find? (fun d => d.id == c.document_id)).map (fun d => (c, d))
      else none)
  let ordered := sortByKey (fun cd => env.vec_dist qvec cd.1.embedding) rows
  (ordered.take k).map
    (fun cd => ⟨cd.1.id, cd.2.title, cd.1.content, cd.2.source_path,
                1 - env.vec_dist qvec cd.1.embedding⟩)

/-- Embeds TutorAgent._format_references (agent_worker.py). -/
def format_references (chunks : List RetrievedChunk) : String :=
  if chunks.isEmpty then "No strong matches found. Ask clarifying questions."
  else
    String.intercalate "\n\n"
      (chunks.map (fun c => "[" ++ c.doc_title ++ ":" ++ toString c.chunk_id ++ "]\n" ++ c.content))

/-- The required keyword-only parameters of build_system_prompt
(prompts.py); they have no defaults. -/
def build_system_prompt_required_kwonly : List String :=
  ["tutor_name", "personality_prompt", "repeat_flags", "recommended_focus"]

/-- The keyword arguments passed to build_system_prompt by
TutorAgent.on_user_turn_completed (agent_worker.py): the call passes
only the three positional arguments. -/
def on_user_turn_call_kwargs : List String := []

/-- Whether the build_system_prompt call of on_user_turn_completed
binds: Python raises TypeError when a required keyword-only parameter
is not supplied. -/
def build_system_prompt_call_binds : Bool :=
  build_system_prompt_required_kwonly.all (fun p => on_user_turn_call_kwargs.contains p)

/-- A message of the live conversation context. -/
structure ChatMessage where
  role : String
  content : String
deriving DecidableEq

/-- Embeds TutorAgent.on_user_turn_completed (agent_worker.py): retrieve
passages for the latest user text, format the references block, then
call build_system_prompt and replace any prior system/developer message
with the single freshly built one.  The prompt call cannot bind
(agent_worker.py passes no keyword arguments while prompts.py requires
four keyword-only parameters), so Python raises TypeError before the
context rewrite; the ok branch records the rewrite the source would
perform after a successful prompt build. -/
def on_user_turn_completed (env : RagEnv) (course_id topic_id : Int) (db : RagDB)
    (items : List ChatMessage) (new_message : ChatMessage) :
    Except String (List ChatMessage) :=
  let latest_user := new_message.content
  let chunks := retrieve_chunks env latest_user course_id topic_id 5 db
  let references := format_references chunks
  if build_system_prompt_call_binds then
    Except.ok
      (⟨"system", references⟩ ::
        items.filter (fun it => !(it.role == "system" || it.role == "developer")))
  else
    Except.error "type_error_missing_required_keyword_only_arguments"

/-- A read step of the state-threaded quota check: a SELECT returns its
value and leaves the database untouched. -/
def dbRead {α : Type} (f : DB → α) (db : DB) : α × DB := (f db, db)

/-- State-threaded rendering of check_subscription_quota: the same
sequence of SELECT statements as the source, each threaded through the
database state explicitly so that the absence of writes is a stated
property rather than a convention.  _quota_for_profile performs only
SELECTs, so each candidate evaluation is a single read step. -/
def check_subscription_quota_st (student_id : String) (now : Int) (db : DB) :
    QuotaResult × DB :=
  let step1 := dbRead (fun d => d.profiles.find? (fun p => p.id == student_id)) db
  match step1.1 with
  | none => (⟨false, some "profile_not_found", 0, 0, 0, 0, none⟩, step1.2)
  | some prow =>
    let step2 := dbRead (parent_profile_ids_for_student student_id) step1.2
    let step3 := (prow.id :: step2.1).foldl
      (fun acc pid =>
        let q := dbRead (quota_for_profile pid (pid == prow.id) now) acc.2
        (acc.1 ++ [q.1], q.2))
      (([] : List QuotaResult), step2.2)
    let candidates := step3.1
    match candidates.filter (fun c => c.allowed) with
    | a :: rest => (pyMaxBy (fun c => c.remaining_minutes) a rest, step3.2)
    | [] =>
      match candidates with
      | c :: rest => (pyMaxBy (fun c => c.remaining_minutes) c rest, step3.2)
      | [] => (⟨false, some "quota_exceeded", 0, 0, 0, 0, none⟩, step3.2)

example : minutes_used_for_students ["p1"] none none
    ⟨[], [], [], [⟨"s1", "p1", none, 1, "ended", some 10, some 1810, some 1800⟩],
      [], [], [], [], [], [], []⟩ = 30 := by decide

example : consume_quota_minutes "u1" 10 0
    ⟨[], [], [], [], [], [⟨1, "u1", 25, none, 0⟩], [], [], [], [], []⟩
    = ⟨[], [], [], [], [], [⟨1, "u1", 15, none, 0⟩], [], [], [], [], []⟩ := by decide

lemma pyMaxBy_mem {α : Type} (f : α → Int) :
    ∀ (t : List α) (h : α), pyMaxBy f h t ∈ h :: t := by
  intro t
  induction t with
  | nil => intro h; simp [pyMaxBy]
  | cons x xs ih =>
    intro h
    have hstep : pyMaxBy f h (x :: xs) = pyMaxBy f (if f h < f x then x else h) xs := rfl
    rw [hstep]
    rcases List.mem_cons.1 (ih (if f h < f x then x else h)) with h1 | h1
    · rw [h1]
      by_cases hc : f h < f x
      · simp [hc]
      · simp [hc]
    · exact List.mem_cons_of_mem _ (List.mem_cons_of_mem _ h1)

lemma pyMaxBy_le {α : Type} (f : α → Int) :
    ∀ (t : List α) (h : α), ∀ y ∈ h :: t, f y ≤ f (pyMaxBy f h t) := by
  intro t
  induction t with
  | nil =>
    intro h y hy
    rcases List.mem_cons.1 hy with rfl | hy2
    · simp [pyMaxBy]
    · simp at hy2
  | cons x xs ih =>
    intro h y hy
    have hstep : pyMaxBy f h (x :: xs) = pyMaxBy f (if f h < f x then x else h) xs := rfl
    rw [hstep]
    have hh : f h ≤ f (if f h < f x then x else h) := by
      by_cases hc : f h < f x
      · simpa [hc] using le_of_lt hc
      · simp [hc]
    have hx : f x ≤ f (if f h < f x then x else h) := by
      by_cases hc : f h < f x
      · simp [hc]
      · simpa [hc] using not_lt.1 hc
    have hhead := ih (if f h < f x then x else h) _ (List.mem_cons_self _ _)
    rcases List.mem_cons.1 hy with rfl | hy2
    · exact le_trans hh hhead
    rcases List.mem_cons.1 hy2 with rfl | hy3
    · exact le_trans hx hhead
    · exact ih _ y (List.mem_cons_of_mem _ hy3)

lemma quota_for_profile_free (pid : String) (incl : Bool) (now : Int) (db : DB) :
    (quota_for_profile pid incl now db).free_minutes_remaining
      = quota_free_remaining pid incl db := by
  unfold quota_for_profile
  dsimp only
  split <;> rfl

lemma quota_for_profile_sub (pid : String) (incl : Bool) (now : Int) (db : DB) :
    (quota_for_profile pid incl now db).subscription_minutes_remaining
      = quota_subscription_remaining pid db := by
  unfold quota_for_profile
  dsimp only
  split <;> rfl

lemma quota_for_profile_billing (pid : String) (incl : Bool) (now : Int) (db : DB) :
    (quota_for_profile pid incl now db).billing_profile_id = some pid := by
  unfold quota_for_profile
  dsimp only
  split <;> rfl

lemma quota_for_profile_allowed_iff (pid : String) (incl : Bool) (now : Int) (db : DB) :
    (quota_for_profile pid incl now db).allowed = true ↔
      0 < (quota_for_profile pid incl now db).remaining_minutes := by
  unfold quota_for_profile
  dsimp only
  split
  · rename_i hpos
    simpa using hpos
  · simp

lemma quota_subscription_remaining_eq (pid : String) (db : DB)
    (srow : SubscriptionRow) (m : Int)
    (h1 : active_subscription_for_profile pid db = some srow)
    (h2 : srow.monthly_minutes = some m) (h3 : 0 < m) :
    quota_subscription_remaining pid db
      = max 0 (m - minutes_used_for_students (profile_student_ids pid db)
          srow.current_period_start srow.current_period_end db) := by
  unfold quota_subscription_remaining
  rw [h1]
  simp only [h2, Option.getD_some, h3, if_pos]

lemma credits_remaining_nonneg (pid : String) (now : Int) (db : DB) :
    0 ≤ credits_remaining_for_profile pid now db := by
  unfold credits_remaining_for_profile
  apply List.sum_nonneg
  intro x hx
  rcases List.mem_map.1 hx with ⟨c, hc, rfl⟩
  have h2 := (List.mem_filter.1 hc).2
  rw [Bool.and_eq_true] at h2
  have helig := h2.2
  unfold creditEligible at helig
  rw [Bool.and_eq_true] at helig
  exact le_of_lt (of_decide_eq_true helig.1)


/-- Sum of eligible credit minutes of one payer over an arbitrary grant
list; credits_remaining_for_profile is this sum over the usage_credits
table. -/
def creditsSum (p : String) (now : Int) (gs : List CreditRow) : Int :=
  ((gs.filter (fun c => c.profile_id == p && creditEligible now c)).map
    (fun c => c.minutes_remaining)).sum

lemma credits_remaining_eq_creditsSum (p : String) (now : Int) (db : DB) :
    credits_remaining_for_profile p now db = creditsSum p now db.usage_credits := rfl

lemma creditsSum_cons (p : String) (now : Int) (x : CreditRow) (xs : List CreditRow) :
    creditsSum p now (x :: xs)
      = (if (x.profile_id == p && creditEligible now x) = true then x.minutes_remaining else 0)
        + creditsSum p now xs := by
  by_cases h : (x.profile_id == p && creditEligible now x) = true <;>
    simp [creditsSum, h]

lemma creditsSum_nonneg (p : String) (now : Int) (gs : List CreditRow) :
    0 ≤ creditsSum p now gs := by
  unfold creditsSum
  apply List.sum_nonneg
  intro x hx
  rcases List.mem_map.1 hx with ⟨c, hc, rfl⟩
  have h2 := (List.mem_filter.1 hc).2
  rw [Bool.and_eq_true] at h2
  have helig := h2.2
  unfold creditEligible at helig
  rw [Bool.and_eq_true] at helig
  exact le_of_lt (of_decide_eq_true helig.1)

lemma eligible_pos (p : String) (now : Int) (c : CreditRow)
    (h : (c.profile_id == p && creditEligible now c) = true) :
    0 < c.minutes_remaining := by
  rw [Bool.and_eq_true] at h
  have helig := h.2
  unfold creditEligible at helig
  rw [Bool.and_eq_true] at helig
  exact of_decide_eq_true helig.1

lemma pred_updateRem (q : String) (now : Int) (c : CreditRow) (v : Int) :
    ((updateRem c v).profile_id == q && creditEligible now (updateRem c v))
      = ((c.profile_id == q) && (decide (0 < v) && creditExpiryOk now c)) := rfl

lemma consumeCreditsList_cons_skip (p : String) (now r : Int) (c : CreditRow)
    (cs : List CreditRow) (he : ¬ (c.profile_id == p && creditEligible now c) = true) :
    consumeCreditsList p now r (c :: cs)
      = ((consumeCreditsList p now r cs).1, c :: (consumeCreditsList p now r cs).2) := by
  rw [consumeCreditsList]
  rw [if_neg he]

lemma consumeCreditsList_cons_stop (p : String) (now : Int) (c : CreditRow)
    (cs : List CreditRow) (he : (c.profile_id == p && creditEligible now c) = true) :
    consumeCreditsList p now 0 (c :: cs) = (0, c :: cs) := by
  rw [consumeCreditsList]
  rw [if_pos he, if_pos (le_refl (0 : Int))]

lemma consumeCreditsList_cons_elig (p : String) (now r : Int) (c : CreditRow)
    (cs : List CreditRow) (he : (c.profile_id == p && creditEligible now c) = true)
    (hr0 : 0 < r) :
    consumeCreditsList p now r (c :: cs)
      = ((consumeCreditsList p now (r - min r c.minutes_remaining) cs).1,
         updateRem c (c.minutes_remaining - min r c.minutes_remaining)
           :: (consumeCreditsList p now (r - min r c.minutes_remaining) cs).2) := by
  rw [consumeCreditsList]
  rw [if_pos he, if_neg (not_le.2 hr0)]

lemma updateRem_minutes (c : CreditRow) (v : Int) :
    (updateRem c v).minutes_remaining = v := rfl

lemma consumeCreditsList_spec (p : String) (now : Int) :
    ∀ (gs : List CreditRow) (r : Int), 0 ≤ r →
      (consumeCreditsList p now r gs).1 = max 0 (r - creditsSum p now gs) ∧
      creditsSum p now (consumeCreditsList p now r gs).2
        = max 0 (creditsSum p now gs - r) := by
  intro gs
  induction gs with
  | nil =>
    intro r hr
    constructor
    · show r = max 0 (r - creditsSum p now [])
      simp [creditsSum]
      omega
    · show creditsSum p now [] = max 0 (creditsSum p now [] - r)
      simp [creditsSum]
      omega
  | cons c cs ih =>
    intro r hr
    have hS : 0 ≤ creditsSum p now cs := creditsSum_nonneg p now cs
    by_cases he : (c.profile_id == p && creditEligible now c) = true
    · have hpos := eligible_pos p now c he
      have hSc : creditsSum p now (c :: cs) = c.minutes_remaining + creditsSum p now cs := by
        rw [creditsSum_cons, if_pos he]
      by_cases hr0 : r ≤ 0
      · have hr2 : r = 0 := le_antisymm hr0 hr
        subst hr2
        rw [consumeCreditsList_cons_stop p now c cs he]
        constructor
        · show (0 : Int) = max 0 (0 - creditsSum p now (c :: cs))
          omega
        · show creditsSum p now (c :: cs) = max 0 (creditsSum p now (c :: cs) - 0)
          omega
      · push_neg at hr0
        rw [consumeCreditsList_cons_elig p now r c cs he hr0]
        dsimp only
        have hdr : min r c.minutes_remaining ≤ r := min_le_left _ _
        have hdc : min r c.minutes_remaining ≤ c.minutes_remaining := min_le_right _ _
        have hd0 : 0 < min r c.minutes_remaining := lt_min hr0 hpos
        have hrec := ih (r - min r c.minutes_remaining) (by omega)
        have he2 := he
        rw [Bool.and_eq_true] at he2
        have hee := he2.2
        unfold creditEligible at hee
        rw [Bool.and_eq_true] at hee
        have hhead : creditsSum p now
            (updateRem c (c.minutes_remaining - min r c.minutes_remaining)
              :: (consumeCreditsList p now (r - min r c.minutes_remaining) cs).2)
            = (c.minutes_remaining - min r c.minutes_remaining)
              + creditsSum p now
                  (consumeCreditsList p now (r - min r c.minutes_remaining) cs).2 := by
          rw [creditsSum_cons, pred_updateRem]
          by_cases hv : 0 < c.minutes_remaining - min r c.minutes_remaining
          · have hcond : (c.profile_id == p &&
                (decide (0 < c.minutes_remaining - min r c.minutes_remaining)
                  && creditExpiryOk now c)) = true := by
              rw [he2.1, decide_eq_true hv, hee.2]
              rfl
            rw [if_pos hcond, updateRem_minutes]
          · have hv0 : c.minutes_remaining - min r c.minutes_remaining = 0 := by omega
            have hcond : ¬ (c.profile_id == p &&
                (decide (0 < c.minutes_remaining - min r c.minutes_remaining)
                  && creditExpiryOk now c)) = true := by
              rw [hv0]
              simp
            rw [if_neg hcond, hv0]
        constructor
        · rw [hrec.1, hSc]
          omega
        · rw [hhead, hrec.2, hSc]
          omega
    · rw [consumeCreditsList_cons_skip p now r c cs he]
      dsimp only
      have hrec := ih r hr
      have hSc : creditsSum p now (c :: cs) = creditsSum p now cs := by
        rw [creditsSum_cons, if_neg he]
        omega
      constructor
      · rw [hrec.1, hSc]
      · rw [creditsSum_cons, if_neg he, hrec.2, hSc]
        omega

lemma consumeCreditsList_sum_le (p q : String) (now : Int) :
    ∀ (gs : List CreditRow) (r : Int), 0 ≤ r →
      creditsSum q now (consumeCreditsList p now r gs).2 ≤ creditsSum q now gs := by
  intro gs
  induction gs with
  | nil => intro r hr; exact le_refl _
  | cons c cs ih =>
    intro r hr
    by_cases he : (c.profile_id == p && creditEligible now c) = true
    · have hpos := eligible_pos p now c he
      by_cases hr0 : r ≤ 0
      · have hr2 : r = 0 := le_antisymm hr0 hr
        subst hr2
        rw [consumeCreditsList_cons_stop p now c cs he]
      · push_neg at hr0
        rw [consumeCreditsList_cons_elig p now r c cs he hr0]
        dsimp only
        have hdr : min r c.minutes_remaining ≤ r := min_le_left _ _
        have hdc : min r c.minutes_remaining ≤ c.minutes_remaining := min_le_right _ _
        have hrec := ih (r - min r c.minutes_remaining) (by omega)
        rw [creditsSum_cons, creditsSum_cons (x := c), pred_updateRem]
        by_cases hq : (c.profile_id == q) = true
        · have hee : creditEligible now c = true := by
            have he2 := he
            rw [Bool.and_eq_true] at he2
            exact he2.2
          have heq : (c.profile_id == q && creditEligible now c) = true := by
            rw [Bool.and_eq_true]
            exact ⟨hq, hee⟩
          have heeSplit := hee
          unfold creditEligible at heeSplit
          rw [Bool.and_eq_true] at heeSplit
          rw [if_pos heq]
          by_cases hv : 0 < c.minutes_remaining - min r c.minutes_remaining
          · have hcond : (c.profile_id == q &&
                (decide (0 < c.minutes_remaining - min r c.minutes_remaining)
                  && creditExpiryOk now c)) = true := by
              rw [hq, decide_eq_true hv, heeSplit.2]
              rfl
            rw [if_pos hcond, updateRem_minutes]
            omega
          · have hv0 : c.minutes_remaining - min r c.minutes_remaining = 0 := by omega
            have hcond : ¬ (c.profile_id == q &&
                (decide (0 < c.minutes_remaining - min r c.minutes_remaining)
                  && creditExpiryOk now c)) = true := by
              rw [hv0]
              simp
            rw [if_neg hcond]
            omega
        · have hcond1 : ¬ (c.profile_id == q &&
              (decide (0 < c.minutes_remaining - min r c.minutes_remaining)
                && creditExpiryOk now c)) = true := by
            rw [Bool.and_eq_true]
            rintro ⟨h1, -⟩
            exact hq h1
          have hcond2 : ¬ (c.profile_id == q && creditEligible now c) = true := by
            rw [Bool.and_eq_true]
            rintro ⟨h1, -⟩
            exact hq h1
          rw [if_neg hcond1, if_neg hcond2]
          omega
    · rw [consumeCreditsList_cons_skip p now r c cs he]
      dsimp only
      have hrec := ih r hr
      rw [creditsSum_cons, creditsSum_cons (x := c)]
      omega

lemma consumeCreditsList_pointwise (p : String) (now : Int) :
    ∀ (gs : List CreditRow) (r : Int),
      List.Forall₂
        (fun c c2 => c2.id = c.id ∧ c2.profile_id = c.profile_id ∧
          c2.expires_at = c.expires_at ∧ c2.created_at = c.created_at ∧
          c2.minutes_remaining ≤ c.minutes_remaining ∧
          (0 ≤ c.minutes_remaining → 0 ≤ c2.minutes_remaining))
        gs (consumeCreditsList p now r gs).2 := by
  intro gs
  induction gs with
  | nil => intro r; exact List.Forall₂.nil
  | cons c cs ih =>
    intro r
    by_cases he : (c.profile_id == p && creditEligible now c) = true
    · by_cases hr0 : r ≤ 0
      · by_cases hr' : r = 0
        · subst hr'
          rw [consumeCreditsList_cons_stop p now c cs he]
          rw [List.forall₂_same]
          intro x _
          exact ⟨rfl, rfl, rfl, rfl, le_refl _, fun h => h⟩
        · have hrlt : r < 0 := lt_of_le_of_ne hr0 hr'
          rw [consumeCreditsList]
          rw [if_pos he, if_pos hr0]
          rw [List.forall₂_same]
          intro x _
          exact ⟨rfl, rfl, rfl, rfl, le_refl _, fun h => h⟩
      · push_neg at hr0
        rw [consumeCreditsList_cons_elig p now r c cs he hr0]
        refine List.Forall₂.cons ?_ (ih (r - min r c.minutes_remaining))
        have hpos := eligible_pos p now c he
        refine ⟨rfl, rfl, rfl, rfl, ?_, ?_⟩
        · show c.minutes_remaining - min r c.minutes_remaining ≤ c.minutes_remaining
          have := lt_min hr0 hpos
          omega
        · intro h
          show 0 ≤ c.minutes_remaining - min r c.minutes_remaining
          have := min_le_right r c.minutes_remaining
          omega
    · rw [consumeCreditsList_cons_skip p now r c cs he]
      exact List.Forall₂.cons ⟨rfl, rfl, rfl, rfl, le_refl _, fun h => h⟩ (ih r)

lemma consume_credits_nonpos (p : String) (N now : Int) (db : DB) (h : N ≤ 0) :
    consume_credits p N now db = db := by
  unfold consume_credits
  rw [if_pos h]

lemma consume_credits_usage (p : String) (N now : Int) (db : DB) (h : ¬ N ≤ 0) :
    (consume_credits p N now db).usage_credits
      = (consumeCreditsList p now N db.usage_credits).2 := by
  unfold consume_credits
  rw [if_neg h]

lemma consume_credits_sum_le (p q : String) (N now : Int) (db : DB) :
    credits_remaining_for_profile q now (consume_credits p N now db)
      ≤ credits_remaining_for_profile q now db := by
  by_cases h : N ≤ 0
  · rw [consume_credits_nonpos p N now db h]
  · rw [credits_remaining_eq_creditsSum, credits_remaining_eq_creditsSum,
      consume_credits_usage p N now db h]
    exact consumeCreditsList_sum_le p q now db.usage_credits N (by omega)

lemma consume_credits_drain (p : String) (N now : Int) (db : DB) (h0 : 0 ≤ N) :
    credits_remaining_for_profile p now (consume_credits p N now db)
      = max 0 (credits_remaining_for_profile p now db - N) := by
  by_cases h : N ≤ 0
  · have h2 : N = 0 := le_antisymm h h0
    subst h2
    rw [consume_credits_nonpos p 0 now db (le_refl _)]
    have := creditsSum_nonneg p now db.usage_credits
    rw [credits_remaining_eq_creditsSum]
    omega
  · rw [credits_remaining_eq_creditsSum, credits_remaining_eq_creditsSum,
      consume_credits_usage p N now db h]
    exact (consumeCreditsList_spec p now db.usage_credits N h0).2

lemma consume_credits_exact (p : String) (N now : Int) (db : DB) (h0 : 0 ≤ N)
    (h1 : N ≤ credits_remaining_for_profile p now db) :
    credits_remaining_for_profile p now (consume_credits p N now db)
      = credits_remaining_for_profile p now db - N := by
  rw [consume_credits_drain p N now db h0]
  omega

lemma consume_credits_pointwise (p : String) (N now : Int) (db : DB) :
    List.Forall₂
      (fun c c2 => c2.id = c.id ∧ c2.profile_id = c.profile_id ∧
        c2.expires_at = c.expires_at ∧ c2.created_at = c.created_at ∧
        c2.minutes_remaining ≤ c.minutes_remaining ∧
        (0 ≤ c.minutes_remaining → 0 ≤ c2.minutes_remaining))
      db.usage_credits (consume_credits p N now db).usage_credits := by
  by_cases h : N ≤ 0
  · rw [consume_credits_nonpos p N now db h]
    rw [List.forall₂_same]
    intro x _
    exact ⟨rfl, rfl, rfl, rfl, le_refl _, fun h2 => h2⟩
  · rw [consume_credits_usage p N now db h]
    exact consumeCreditsList_pointwise p now db.usage_credits N

lemma best_credit_fold_spec (now : Int) (db : DB) :
    ∀ (l : List String) (acc : Option String × Int),
      (∀ q ∈ l, credits_remaining_for_profile q now db
          ≤ (l.foldl (fun acc pid =>
              let remaining := credits_remaining_for_profile pid now db
              if acc.2 < remaining then (some pid, remaining) else acc) acc).2) ∧
      acc.2 ≤ (l.foldl (fun acc pid =>
          let remaining := credits_remaining_for_profile pid now db
          if acc.2 < remaining then (some pid, remaining) else acc) acc).2 ∧
      ((l.foldl (fun acc pid =>
          let remaining := credits_remaining_for_profile pid now db
          if acc.2 < remaining then (some pid, remaining) else acc) acc) = acc ∨
        ∃ p ∈ l, (l.foldl (fun acc pid =>
          let remaining := credits_remaining_for_profile pid now db
          if acc.2 < remaining then (some pid, remaining) else acc) acc)
            = (some p, credits_remaining_for_profile p now db)) := by
  intro l
  induction l with
  | nil =>
    intro acc
    refine ⟨?_, le_refl _, Or.inl rfl⟩
    intro q hq
    simp at hq
  | cons x xs ih =>
    intro acc
    have hfold : (x :: xs).foldl (fun acc pid =>
        let remaining := credits_remaining_for_profile pid now db
        if acc.2 < remaining then (some pid, remaining) else acc) acc
      = xs.foldl (fun acc pid =>
          let remaining := credits_remaining_for_profile pid now db
          if acc.2 < remaining then (some pid, remaining) else acc)
          (if acc.2 < credits_remaining_for_profile x now db
           then (some x, credits_remaining_for_profile x now db) else acc) := rfl
    rw [hfold]
    rcases ih (if acc.2 < credits_remaining_for_profile x now db
        then (some x, credits_remaining_for_profile x now db) else acc) with ⟨iha, ihb, ihc⟩
    have hacc2 : acc.2 ≤ (if acc.2 < credits_remaining_for_profile x now db
        then (some x, credits_remaining_for_profile x now db) else acc).2 := by
      by_cases hc : acc.2 < credits_remaining_for_profile x now db
      · rw [if_pos hc]
        exact le_of_lt hc
      · rw [if_neg hc]
    have hx2 : credits_remaining_for_profile x now db
        ≤ (if acc.2 < credits_remaining_for_profile x now db
           then (some x, credits_remaining_for_profile x now db) else acc).2 := by
      by_cases hc : acc.2 < credits_remaining_for_profile x now db
      · rw [if_pos hc]
      · rw [if_neg hc]
        omega
    refine ⟨?_, le_trans hacc2 ihb, ?_⟩
    · intro q hq
      rcases List.mem_cons.1 hq with rfl | hq2
      · exact le_trans hx2 ihb
      · exact iha q hq2
    · rcases ihc with hc1 | hc2
      · rw [hc1]
        by_cases hc : acc.2 < credits_remaining_for_profile x now db
        · right
          refine ⟨x, List.mem_cons_self _ _, ?_⟩
          rw [if_pos hc]
        · left
          rw [if_neg hc]
      · rcases hc2 with ⟨p, hp, hpe⟩
        right
        exact ⟨p, List.mem_cons_of_mem _ hp, hpe⟩

lemma best_credit_candidate_spec (now : Int) (db : DB) (l : List String) :
    (∀ q ∈ l, credits_remaining_for_profile q now db ≤ (best_credit_candidate now db l).2) ∧
    0 ≤ (best_credit_candidate now db l).2 ∧
    ((best_credit_candidate now db l) = (none, 0) ∨
      ∃ p ∈ l, (best_credit_candidate now db l)
        = (some p, credits_remaining_for_profile p now db)) := by
  have h := best_credit_fold_spec now db l ((none : Option String), (0 : Int))
  exact ⟨h.1, h.2.1, h.2.2⟩

lemma consume_quota_minutes_nonpos (sid : String) (N now : Int) (db : DB) (h : N ≤ 0) :
    consume_quota_minutes sid N now db = db := by
  unfold consume_quota_minutes
  rw [if_pos h]

lemma consume_quota_minutes_sub_noop (sid : String) (N now : Int) (db : DB)
    (hN : ¬ N ≤ 0)
    (hsub : ((sid :: parent_profile_ids_for_student sid db).any
      (fun pid => (active_subscription_for_profile pid db).isSome)) = true) :
    consume_quota_minutes sid N now db = db := by
  unfold consume_quota_minutes
  rw [if_neg hN]
  dsimp only
  rw [if_pos hsub]

lemma consume_quota_minutes_else (sid : String) (N now : Int) (db : DB)
    (hN : ¬ N ≤ 0)
    (hsub : ¬ ((sid :: parent_profile_ids_for_student sid db).any
      (fun pid => (active_subscription_for_profile pid db).isSome)) = true) :
    consume_quota_minutes sid N now db
      = (match (best_credit_candidate now db
            (sid :: parent_profile_ids_for_student sid db)).1 with
         | some p =>
           if 0 < (best_credit_candidate now db
               (sid :: parent_profile_ids_for_student sid db)).2 then
             consume_credits p N now db
           else db
         | none => db) := by
  unfold consume_quota_minutes
  rw [if_neg hN]
  dsimp only
  rw [if_neg hsub]

lemma consume_quota_minutes_sum_le (sid : String) (N now : Int) (db : DB) (q : String) :
    credits_remaining_for_profile q now (consume_quota_minutes sid N now db)
      ≤ credits_remaining_for_profile q now db := by
  by_cases hN : N ≤ 0
  · rw [consume_quota_minutes_nonpos sid N now db hN]
  by_cases hsub : ((sid :: parent_profile_ids_for_student sid db).any
      (fun pid => (active_subscription_for_profile pid db).isSome)) = true
  · rw [consume_quota_minutes_sub_noop sid N now db hN hsub]
  rw [consume_quota_minutes_else sid N now db hN hsub]
  rcases hb : (best_credit_candidate now db
      (sid :: parent_profile_ids_for_student sid db)).1 with _ | p
  · exact le_refl _
  · dsimp only
    split
    · exact consume_credits_sum_le p q N now db
    · exact le_refl _

lemma end_session_consume_amount_eq_ceil (d : Int) :
    end_session_consume_amount d = Int.ceil ((d : ℚ) / 60) := by
  unfold end_session_consume_amount
  rw [Int.fdiv_eq_ediv _ (by norm_num : (0 : Int) ≤ 60)]
  have h60 : (0 : Int) < 60 := by norm_num
  have h1 : ((d + 59) / 60) * 60 ≤ d + 59 :=
    (Int.le_ediv_iff_mul_le h60).1 (le_refl ((d + 59) / 60))
  have h2 : d + 59 < ((d + 59) / 60 + 1) * 60 :=
    Int.lt_ediv_add_one_mul_self (d + 59) h60
  have h3 : d ≤ ((d + 59) / 60) * 60 := by omega
  have h4 : (((d + 59) / 60) - 1) * 60 < d := by omega
  symm
  rw [Int.ceil_eq_iff]
  constructor
  · rw [lt_div_iff₀ (by norm_num : (0 : ℚ) < 60)]
    calc ((((d + 59) / 60 : Int) : ℚ) - 1) * 60
        = ((((d + 59) / 60 - 1) * 60 : Int) : ℚ) := by push_cast; ring
      _ < ((d : Int) : ℚ) := by exact_mod_cast h4
  · rw [div_le_iff₀ (by norm_num : (0 : ℚ) < 60)]
    calc ((d : Int) : ℚ) ≤ (((((d + 59) / 60) * 60 : Int)) : ℚ) := by exact_mod_cast h3
      _ = (((d + 59) / 60 : Int) : ℚ) * 60 := by push_cast; ring

/-- Empty database. -/
def dbEmpty : DB := ⟨[], [], [], [], [], [], [], [], [], [], []⟩

/-- A payer with two credit grants and nothing else. -/
def dbCredits : DB :=
  ⟨[], [], [], [], [], [⟨1, "u1", 25, none, 0⟩, ⟨2, "u1", 10, none, 1⟩], [], [], [], [], []⟩

/-- A payer with an active subscription and a credit grant. -/
def dbSub : DB :=
  ⟨[], [], [], [], [⟨"u1", "active", some 0, some 100000, some 100, 0⟩],
   [⟨1, "u1", 25, none, 0⟩], [], [], [], [], []⟩

/-- C4: on session end the consumed amount is ceil(duration/60); any
candidate payer holding a subscription in an active status makes
consumption a no-op; with no subscription and no positive credit
remainder anywhere consumption does nothing and raises no error; and
otherwise consumption picks a candidate payer with the greatest credit
remainder and drains that payer's eligible grants until the amount is
exhausted or the grants run out, clamped at zero ("active subscription"
is read as the source's active/trialing/past_due status filter). -/
theorem claim_C4_consumption_policy :
    (∀ d : Int, 0 ≤ d → end_session_consume_amount d = Int.ceil ((d : ℚ) / 60)) ∧
    (∀ (sid : String) (N now : Int) (db : DB),
       (∃ pid ∈ sid :: parent_profile_ids_for_student sid db,
          (active_subscription_for_profile pid db).isSome = true) →
       consume_quota_minutes sid N now db = db) ∧
    (∀ (sid : String) (N now : Int) (db : DB),
       (∀ pid ∈ sid :: parent_profile_ids_for_student sid db,
          active_subscription_for_profile pid db = none) →
       (∀ pid ∈ sid :: parent_profile_ids_for_student sid db,
          credits_remaining_for_profile pid now db ≤ 0) →
       consume_quota_minutes sid N now db = db) ∧
    (∀ (sid : String) (N now : Int) (db : DB), 0 < N →
       (∀ pid ∈ sid :: parent_profile_ids_for_student sid db,
          active_subscription_for_profile pid db = none) →
       (∃ pid ∈ sid :: parent_profile_ids_for_student sid db,
          0 < credits_remaining_for_profile pid now db) →
       ∃ p ∈ sid :: parent_profile_ids_for_student sid db,
         0 < credits_remaining_for_profile p now db ∧
         (∀ q ∈ sid :: parent_profile_ids_for_student sid db,
            credits_remaining_for_profile q now db
              ≤ credits_remaining_for_profile p now db) ∧
         consume_quota_minutes sid N now db = consume_credits p N now db) ∧
    (∀ (p : String) (N now : Int) (db : DB), 0 ≤ N →
       credits_remaining_for_profile p now (consume_credits p N now db)
         = max 0 (credits_remaining_for_profile p now db - N)) := by
  refine ⟨fun d _ => end_session_consume_amount_eq_ceil d, ?_, ?_, ?_, ?_⟩
  · intro sid N now db hex
    by_cases hN : N ≤ 0
    · exact consume_quota_minutes_nonpos sid N now db hN
    · rcases hex with ⟨pid, hm, hs⟩
      exact consume_quota_minutes_sub_noop sid N now db hN
        (List.any_eq_true.2 ⟨pid, hm, hs⟩)
  · intro sid N now db hnone hz
    by_cases hN : N ≤ 0
    · exact consume_quota_minutes_nonpos sid N now db hN
    · have hsub : ¬ ((sid :: parent_profile_ids_for_student sid db).any
          (fun pid => (active_subscription_for_profile pid db).isSome)) = true := by
        intro hc
        rcases List.any_eq_true.1 hc with ⟨pid, hm, hs⟩
        rw [hnone pid hm] at hs
        simp at hs
      rw [consume_quota_minutes_else sid N now db hN hsub]
      rcases best_credit_candidate_spec now db
          (sid :: parent_profile_ids_for_student sid db) with ⟨hge, hnn, hcases⟩
      rcases hcases with hb | ⟨p, hp, hbe⟩
      · rw [hb]
      · rw [hbe]
        dsimp only
        rw [if_neg]
        have := hz p hp
        omega
  · intro sid N now db hN hnone hex
    have hsub : ¬ ((sid :: parent_profile_ids_for_student sid db).any
        (fun pid => (active_subscription_for_profile pid db).isSome)) = true := by
      intro hc
      rcases List.any_eq_true.1 hc with ⟨pid, hm, hs⟩
      rw [hnone pid hm] at hs
      simp at hs
    rcases hex with ⟨q0, hq0m, hq0⟩
    rcases best_credit_candidate_spec now db
        (sid :: parent_profile_ids_for_student sid db) with ⟨hge, hnn, hcases⟩
    rcases hcases with hb | ⟨p, hp, hbe⟩
    · exfalso
      have := hge q0 hq0m
      rw [hb] at this
      dsimp only at this
      omega
    · have hfp : 0 < credits_remaining_for_profile p now db := by
        have := hge q0 hq0m
        rw [hbe] at this
        dsimp only at this
        omega
      refine ⟨p, hp, hfp, ?_, ?_⟩
      · intro q hq
        have := hge q hq
        rw [hbe] at this
        exact this
      · rw [consume_quota_minutes_else sid N now db (not_le.2 hN) hsub, hbe]
        dsimp only
        rw [if_pos hfp]
  · intro p N now db h0
    exact consume_credits_drain p N now db h0

/-- Witness for C4 at concrete inputs: a 90-second session consumes 2
minutes; a subscription payer makes consumption a no-op; an empty
database consumes nothing; a credit payer is drained exactly. -/
theorem claim_C4_witness :
    (end_session_consume_amount 90 = Int.ceil ((90 : ℚ) / 60)) ∧
    consume_quota_minutes "u1" 10 0 dbSub = dbSub ∧
    consume_quota_minutes "u1" 10 0 dbEmpty = dbEmpty ∧
    (∃ p ∈ "u1" :: parent_profile_ids_for_student "u1" dbCredits,
       0 < credits_remaining_for_profile p 0 dbCredits ∧
       (∀ q ∈ "u1" :: parent_profile_ids_for_student "u1" dbCredits,
          credits_remaining_for_profile q 0 dbCredits
            ≤ credits_remaining_for_profile p 0 dbCredits) ∧
       consume_quota_minutes "u1" 10 0 dbCredits = consume_credits p 10 0 dbCredits) ∧
    credits_remaining_for_profile "u1" 0 (consume_credits "u1" 10 0 dbCredits)
      = max 0 (credits_remaining_for_profile "u1" 0 dbCredits - 10) :=
  ⟨claim_C4_consumption_policy.1 90 (by decide),
   claim_C4_consumption_policy.2.1 "u1" 10 0 dbSub (by decide),
   claim_C4_consumption_policy.2.2.1 "u1" 10 0 dbEmpty (by decide) (by decide),
   claim_C4_consumption_policy.2.2.2.1 "u1" 10 0 dbCredits (by decide) (by decide)
     (by decide),
   claim_C4_consumption_policy.2.2.2.2 "u1" 10 0 dbCredits (by decide)⟩

/-- C7: consuming never increases any payer's credit remainder; when the
chosen payer's credit remainder covers the amount, the remainder drops
by exactly that amount; and the consumption walk never drives an
individual grant's minutes_remaining below zero (each deduction is
clamped to the grant's own balance, all other columns preserved). -/
theorem claim_C7_quota_monotonicity :
    (∀ (sid : String) (N now : Int) (db : DB) (q : String),
       credits_remaining_for_profile q now (consume_quota_minutes sid N now db)
         ≤ credits_remaining_for_profile q now db) ∧
    (∀ (p : String) (N now : Int) (db : DB), 0 ≤ N →
       N ≤ credits_remaining_for_profile p now db →
       credits_remaining_for_profile p now (consume_credits p N now db)
         = credits_remaining_for_profile p now db - N) ∧
    (∀ (p : String) (N now : Int) (db : DB),
       List.Forall₂
         (fun c c2 => c2.id = c.id ∧ c2.profile_id = c.profile_id ∧
           c2.expires_at = c.expires_at ∧ c2.created_at = c.created_at ∧
           c2.minutes_remaining ≤ c.minutes_remaining ∧
           (0 ≤ c.minutes_remaining → 0 ≤ c2.minutes_remaining))
         db.usage_credits (consume_credits p N now db).usage_credits) :=
  ⟨consume_quota_minutes_sum_le, consume_credits_exact, consume_credits_pointwise⟩

/-- Witness for C7 at concrete inputs: consuming 10 of 35 credit minutes
is monotone and exact. -/
theorem claim_C7_witness :
    credits_remaining_for_profile "u1" 0 (consume_quota_minutes "u1" 10 0 dbCredits)
        ≤ credits_remaining_for_profile "u1" 0 dbCredits ∧
    credits_remaining_for_profile "u1" 0 (consume_credits "u1" 10 0 dbCredits)
        = credits_remaining_for_profile "u1" 0 dbCredits - 10 :=
  ⟨claim_C7_quota_monotonicity.1 "u1" 10 0 dbCredits "u1",
   claim_C7_quota_monotonicity.2.1 "u1" 10 0 dbCredits (by decide) (by decide)⟩

lemma check_candidate_quotas_cons (sid : String) (prow : ProfileRow) (now : Int) (db : DB) :
    check_candidate_quotas sid prow now db
      = quota_for_profile prow.id (prow.id == prow.id) now db ::
        (parent_profile_ids_for_student sid db).map
          (fun pid => quota_for_profile pid (pid == prow.id) now db) := rfl

lemma check_eq_match (sid : String) (now : Int) (db : DB) (prow : ProfileRow)
    (h : db.profiles.find? (fun p => p.id == sid) = some prow) :
    check_subscription_quota sid now db
      = (match (check_candidate_quotas sid prow now db).filter (fun c => c.allowed) with
         | a :: rest => pyMaxBy (fun c => c.remaining_minutes) a rest
         | [] =>
           match check_candidate_quotas sid prow now db with
           | c :: rest => pyMaxBy (fun c => c.remaining_minutes) c rest
           | [] => ⟨false, some "quota_exceeded", 0, 0, 0, 0, none⟩) := by
  unfold check_subscription_quota
  rw [h]

lemma quota_free_remaining_false (pid : String) (db : DB) :
    quota_free_remaining pid false db = 0 := rfl

lemma quota_free_remaining_true (pid : String) (db : DB) :
    quota_free_remaining pid true db
      = max 0 (60 - minutes_used_for_students (profile_student_ids pid db) none none db) := rfl

/-- C3 counterexample: on a database with no profiles the check returns
reason profile_not_found, not the generic quota_exceeded result the
claim describes for the no-candidate case. -/
theorem claim_C3_counterexample :
    check_subscription_quota "s1" 0 dbEmpty
      = ⟨false, some "profile_not_found", 0, 0, 0, 0, none⟩ ∧
    (check_subscription_quota "s1" 0 dbEmpty).reason ≠ some "quota_exceeded" := by
  decide

/-- C3 as amended: one QuotaResult per candidate payer (the student's
profile plus every linked parent), allowed iff the candidate's remaining
minutes are strictly positive; the returned result is one of the
candidates, the allowed one with the greatest remaining minutes when any
candidate is allowed, otherwise a failing candidate with the greatest
remaining minutes; and when the profile does not exist the check returns
the generic result with reason profile_not_found (the quota_exceeded
fallback for an empty candidate list is unreachable because the
student's own profile is always a candidate). -/
theorem claim_C3_amended :
    ∀ (db : DB) (sid : String) (now : Int),
      (db.profiles.find? (fun p => p.id == sid) = none →
        check_subscription_quota sid now db
          = ⟨false, some "profile_not_found", 0, 0, 0, 0, none⟩) ∧
      (∀ prow, db.profiles.find? (fun p => p.id == sid) = some prow →
        (∀ c ∈ check_candidate_quotas sid prow now db,
           (c.allowed = true ↔ 0 < c.remaining_minutes)) ∧
        check_subscription_quota sid now db ∈ check_candidate_quotas sid prow now db ∧
        ((∃ c ∈ check_candidate_quotas sid prow now db, c.allowed = true) →
          (check_subscription_quota sid now db).allowed = true ∧
          ∀ c ∈ check_candidate_quotas sid prow now db, c.allowed = true →
            c.remaining_minutes
              ≤ (check_subscription_quota sid now db).remaining_minutes) ∧
        ((∀ c ∈ check_candidate_quotas sid prow now db, c.allowed = false) →
          ∀ c ∈ check_candidate_quotas sid prow now db,
            c.remaining_minutes
              ≤ (check_subscription_quota sid now db).remaining_minutes)) := by
  intro db sid now
  constructor
  · intro h
    unfold check_subscription_quota
    rw [h]
  · intro prow h
    refine ⟨?_, ?_, ?_, ?_⟩
    · intro c hc
      rcases List.mem_map.1 hc with ⟨pid, hpid, rfl⟩
      exact quota_for_profile_allowed_iff pid _ now db
    · rw [check_eq_match sid now db prow h]
      rcases hf : (check_candidate_quotas sid prow now db).filter (fun c => c.allowed)
        with _ | ⟨a, rest⟩
      · rcases hcs : check_candidate_quotas sid prow now db with _ | ⟨c0, cs⟩
        · exact absurd hcs (by rw [check_candidate_quotas_cons]; simp)
        · rw [hcs] at hf
          rw [hf]
          exact pyMaxBy_mem _ cs c0
      · rw [hf]
        have hmem := pyMaxBy_mem (fun c => c.remaining_minutes) rest a
        rw [← hf] at hmem
        exact List.mem_of_mem_filter hmem
    · rintro ⟨c, hcm, hca⟩
      have hcf : c ∈ (check_candidate_quotas sid prow now db).filter (fun c => c.allowed) :=
        List.mem_filter.2 ⟨hcm, hca⟩
      rcases hf : (check_candidate_quotas sid prow now db).filter (fun c => c.allowed)
        with _ | ⟨a, rest⟩
      · rw [hf] at hcf
        simp at hcf
      · rw [check_eq_match sid now db prow h, hf]
        dsimp only
        constructor
        · have hmem := pyMaxBy_mem (fun c => c.remaining_minutes) rest a
          rw [← hf] at hmem
          exact (List.mem_filter.1 hmem).2
        · intro c2 hc2m hc2a
          have hc2f : c2 ∈ (check_candidate_quotas sid prow now db).filter
              (fun c => c.allowed) := List.mem_filter.2 ⟨hc2m, hc2a⟩
          rw [hf] at hc2f
          exact pyMaxBy_le (fun c => c.remaining_minutes) rest a c2 hc2f
    · intro hall
      have hf : (check_candidate_quotas sid prow now db).filter (fun c => c.allowed) = [] := by
        rw [List.filter_eq_nil_iff]
        intro c hc
        rw [hall c hc]
        simp
      rw [check_eq_match sid now db prow h, hf]
      rcases hcs : check_candidate_quotas sid prow now db with _ | ⟨c0, cs⟩
      · exact absurd hcs (by rw [check_candidate_quotas_cons]; simp)
      · intro c hc
        exact pyMaxBy_le (fun c => c.remaining_minutes) cs c0 c hc

/-- A student with one linked parent, one lifetime session of ten
minutes, and a parent-owned credit grant. -/
def dbFamily : DB :=
  ⟨[⟨"s1", "student"⟩, ⟨"p1", "parent"⟩], ["s1"], [⟨"p1", "s1"⟩],
   [⟨"sess1", "s1", none, 1, "summarized", some 0, some 600, some 600⟩],
   [], [⟨1, "p1", 200, none, 0⟩], [], [], [], [], []⟩

/-- Witness for C3 at concrete inputs: the missing-profile branch on the
empty database and candidate membership on a populated one. -/
theorem claim_C3_witness :
    check_subscription_quota "s1" 0 dbEmpty
      = ⟨false, some "profile_not_found", 0, 0, 0, 0, none⟩ ∧
    check_subscription_quota "s1" 0 dbFamily
      ∈ check_candidate_quotas "s1" ⟨"s1", "student"⟩ 0 dbFamily :=
  ⟨(claim_C3_amended dbEmpty "s1" 0).1 (by decide),
   ((claim_C3_amended dbFamily "s1" 0).2 ⟨"s1", "student"⟩ (by decide)).2.1⟩

/-- C8: the free-tier remainder is max(0, 60 - lifetime minutes) and is
computed only for the student's own candidate; every linked parent
candidate, however many there are, has a free-tier component of 0. -/
theorem claim_C8_free_tier :
    ∀ (db : DB) (sid : String) (now : Int) (prow : ProfileRow),
      db.profiles.find? (fun p => p.id == sid) = some prow →
      ((∀ pid ∈ parent_profile_ids_for_student sid db, pid ≠ prow.id →
         (quota_for_profile pid (pid == prow.id) now db).free_minutes_remaining = 0) ∧
       (quota_for_profile prow.id (prow.id == prow.id) now db).free_minutes_remaining
         = max 0 (60 - minutes_used_for_students (profile_student_ids prow.id db)
             none none db)) := by
  intro db sid now prow hfind
  constructor
  · intro pid hpid hne
    have hb : (pid == prow.id) = false := beq_eq_false_iff_ne.2 hne
    rw [hb, quota_for_profile_free, quota_free_remaining_false]
  · have hb : (prow.id == prow.id) = true := beq_self_eq_true prow.id
    rw [hb, quota_for_profile_free, quota_free_remaining_true]

/-- Witness for C8 at concrete inputs: the linked parent of dbFamily gets
free component 0; the student's own free component reflects the
ten-minute lifetime usage. -/
theorem claim_C8_witness :
    (∀ pid ∈ parent_profile_ids_for_student "s1" dbFamily,
       pid ≠ (⟨"s1", "student"⟩ : ProfileRow).id →
       (quota_for_profile pid (pid == (⟨"s1", "student"⟩ : ProfileRow).id) 0
         dbFamily).free_minutes_remaining = 0) ∧
    (quota_for_profile (⟨"s1", "student"⟩ : ProfileRow).id
        ((⟨"s1", "student"⟩ : ProfileRow).id == (⟨"s1", "student"⟩ : ProfileRow).id) 0
        dbFamily).free_minutes_remaining
      = max 0 (60 - minutes_used_for_students
          (profile_student_ids (⟨"s1", "student"⟩ : ProfileRow).id dbFamily)
          none none dbFamily) :=
  claim_C8_free_tier dbFamily "s1" 0 ⟨"s1", "student"⟩ (by decide)

/-- Definition following the spec's words for "minutes used": only
completed (summarized) sessions whose start time falls in the window
contribute.  It exists for comparison with the source's
minutes_used_for_students, which applies no status filter. -/
def spec_period_minutes_used (student_ids : List String) (period_start period_end : Option Int)
    (db : DB) : Int :=
  if student_ids.isEmpty then 0
  else
    let seconds :=
      ((db.sessions.filter
        (fun s => student_ids.contains s.student_id && (s.status == "summarized") &&
          startedAtInPeriod s.started_at period_start period_end)).map
        (fun s => s.duration_seconds.getD 0)).sum
    max 0 (Int.fdiv seconds 60)

/-- A student payer with an active subscription (100 monthly minutes,
period starting at 0) and one thirty-minute session in status ended. -/
def dbC1 : DB :=
  ⟨[⟨"p1", "student"⟩], ["p1"], [],
   [⟨"s1", "p1", none, 1, "ended", some 10, some 1810, some 1800⟩],
   [⟨"p1", "active", some 0, some 100000, some 100, 0⟩], [], [], [], [], [], []⟩

/-- C1 counterexample: a session in status ended (not summarized) inside
the billing window reduces the subscription-period remainder computed by
the quota check (70 instead of 100), whereas the claim's summarized-only
usage would leave it at 100. -/
theorem claim_C1_counterexample :
    (quota_for_profile "p1" true 0 dbC1).subscription_minutes_remaining = 70 ∧
    max 0 (100 - spec_period_minutes_used ["p1"] (some 0) (some 100000) dbC1) = 100 ∧
    (quota_for_profile "p1" true 0 dbC1).subscription_minutes_remaining
      ≠ max 0 (100 - spec_period_minutes_used ["p1"] (some 0) (some 100000) dbC1) := by
  decide

/-- C1 as amended: for a payer whose active-status subscription carries a
positive monthly allowance, the subscription-period remainder computed
by the quota check equals max(0, monthly_minutes minus period usage),
where period usage sums the durations of all sessions with a start time
in [period_start, period_end) regardless of status. -/
theorem claim_C1_amended :
    ∀ (db : DB) (pid : String) (incl : Bool) (now : Int) (srow : SubscriptionRow) (m : Int),
      active_subscription_for_profile pid db = some srow →
      srow.monthly_minutes = some m → 0 < m →
      (quota_for_profile pid incl now db).subscription_minutes_remaining
        = max 0 (m - minutes_used_for_students (profile_student_ids pid db)
            srow.current_period_start srow.current_period_end db) := by
  intro db pid incl now srow m h1 h2 h3
  rw [quota_for_profile_sub, quota_subscription_remaining_eq pid db srow m h1 h2 h3]

/-- Witness for C1 at a concrete input: the dbC1 payer's subscription
remainder is the clamped difference of 100 and the all-status period
usage. -/
theorem claim_C1_witness :
    (quota_for_profile "p1" true 0 dbC1).subscription_minutes_remaining
      = max 0 (100 - minutes_used_for_students (profile_student_ids "p1" dbC1)
          (⟨"p1", "active", some 0, some 100000, some 100, 0⟩ : SubscriptionRow).current_period_start
          (⟨"p1", "active", some 0, some 100000, some 100, 0⟩ : SubscriptionRow).current_period_end
          dbC1) :=
  claim_C1_amended dbC1 "p1" true 0 ⟨"p1", "active", some 0, some 100000, some 100, 0⟩ 100
    (by decide) (by decide) (by decide)

lemma dbread_fold_state (now : Int) (prowid : String) :
    ∀ (pids : List String) (acc : List QuotaResult × DB),
      (pids.foldl (fun acc pid =>
        (acc.1 ++ [quota_for_profile pid (pid == prowid) now acc.2], acc.2)) acc).2
      = acc.2 := by
  intro pids
  induction pids with
  | nil => intro acc; rfl
  | cons x xs ih =>
    intro acc
    exact ih (acc.1 ++ [quota_for_profile x (x == prowid) now acc.2], acc.2)

lemma dbread_fold_results (now : Int) (prowid : String) :
    ∀ (pids : List String) (acc : List QuotaResult × DB),
      (pids.foldl (fun acc pid =>
        (acc.1 ++ [quota_for_profile pid (pid == prowid) now acc.2], acc.2)) acc).1
      = acc.1 ++ pids.map (fun pid => quota_for_profile pid (pid == prowid) now acc.2) := by
  intro pids
  induction pids with
  | nil => intro acc; simp
  | cons x xs ih =>
    intro acc
    have hstep := ih (acc.1 ++ [quota_for_profile x (x == prowid) now acc.2], acc.2)
    calc (((x :: xs).foldl (fun acc pid =>
            (acc.1 ++ [quota_for_profile pid (pid == prowid) now acc.2], acc.2)) acc)).1
        = ((xs.foldl (fun acc pid =>
            (acc.1 ++ [quota_for_profile pid (pid == prowid) now acc.2], acc.2))
            (acc.1 ++ [quota_for_profile x (x == prowid) now acc.2], acc.2))).1 := rfl
      _ = acc.1 ++ (x :: xs).map (fun pid => quota_for_profile pid (pid == prowid) now acc.2) := by
          rw [hstep]
          simp

lemma check_st_eq (sid : String) (now : Int) (db : DB) :
    check_subscription_quota_st sid now db = (check_subscription_quota sid now db, db) := by
  unfold check_subscription_quota_st check_subscription_quota
  rcases hp : db.profiles.find? (fun p => p.id == sid) with _ | prow
  · simp only [dbRead]
    rw [hp]
  · simp only [dbRead]
    rw [hp]
    dsimp only
    rw [dbread_fold_results now prow.id (prow.id :: parent_profile_ids_for_student sid db)
      ([], db)]
    rw [dbread_fold_state now prow.id (prow.id :: parent_profile_ids_for_student sid db)
      ([], db)]
    dsimp only
    simp only [List.nil_append]
    have hcand : List.map (fun pid => quota_for_profile pid (pid == prow.id) now db)
        (prow.id :: parent_profile_ids_for_student sid db)
        = check_candidate_quotas sid prow now db := rfl
    rw [hcand]
    rcases hf : List.filter (fun c => c.allowed) (check_candidate_quotas sid prow now db)
      with _ | ⟨a, rest⟩
    · rcases hcs : check_candidate_quotas sid prow now db with _ | ⟨c0, cs⟩
      · rw [hcs] at hf
        rw [hf]
      · rw [hcs] at hf
        rw [hf]
    · rw [hf]

/-- C10: check_subscription_quota is read-only — its state-threaded
rendering returns the database unchanged and the same QuotaResult as the
pure function, so a repeated call on the returned state gives the same
result — while consume_quota_minutes is the operation of the ledger that
does mutate credit balances (shown at a concrete input). -/
theorem claim_C10_check_read_only :
    (∀ (sid : String) (now : Int) (db : DB),
       (check_subscription_quota_st sid now db).2 = db ∧
       (check_subscription_quota_st sid now db).1 = check_subscription_quota sid now db ∧
       check_subscription_quota sid now ((check_subscription_quota_st sid now db).2)
         = check_subscription_quota sid now db) ∧
    (consume_quota_minutes "u1" 10 0 dbCredits).usage_credits ≠ dbCredits.usage_credits := by
  constructor
  · intro sid now db
    have h := check_st_eq sid now db
    exact ⟨by rw [h], by rw [h], by rw [h]⟩
  · decide

lemma end_session_sync_not_found (env : SessionEndEnv) (sid stid : String) (db : DB)
    (hrow : db.sessions.find? (fun s => s.id == sid) = none) :
    end_session_sync env sid stid db = (Except.ok false, db, []) := by
  unfold end_session_sync
  rw [hrow]

lemma end_session_sync_gen_fail (env : SessionEndEnv) (sid stid : String) (db : DB)
    (row : SessionRow)
    (hrow : db.sessions.find? (fun s => s.id == sid) = some row)
    (howner : row.student_id = stid)
    (hgen : ¬ env.generation_ok = true) :
    end_session_sync env sid stid db
      = (Except.error "summary_generation_failed",
         updateSessionRow sid (endSessionTxn1Update env.now (endSessionDuration env row)) db,
         ["ended"]) := by
  unfold end_session_sync
  rw [hrow]
  dsimp only
  rw [if_neg (by simp [howner]), if_pos hgen]

lemma end_session_sync_txn2_fail (env : SessionEndEnv) (sid stid : String) (db : DB)
    (row : SessionRow)
    (hrow : db.sessions.find? (fun s => s.id == sid) = some row)
    (howner : row.student_id = stid)
    (hgen : env.generation_ok = true)
    (hfail : ¬ env.summary_upsert_ok = true ∨
      (row.enrolment_id.isSome = true ∧ ¬ env.progress_insert_ok = true) ∨
      ((row.enrolment_id.isSome && !env.progress_payload.repeatItems.isEmpty) = true ∧
        ¬ env.repeat_insert_ok = true)) :
    end_session_sync env sid stid db
      = (Except.error "post_session_write_failed",
         updateSessionRow sid (endSessionTxn1Update env.now (endSessionDuration env row)) db,
         ["ended"]) := by
  unfold end_session_sync
  rw [hrow]
  dsimp only
  rw [if_neg (by simp [howner]), if_neg (by simp [hgen]), if_pos hfail]

lemma end_session_sync_ok (env : SessionEndEnv) (sid stid : String) (db : DB)
    (row : SessionRow)
    (hrow : db.sessions.find? (fun s => s.id == sid) = some row)
    (howner : row.student_id = stid)
    (hgen : env.generation_ok = true)
    (hnofail : ¬ (¬ env.summary_upsert_ok = true ∨
      (row.enrolment_id.isSome = true ∧ ¬ env.progress_insert_ok = true) ∨
      ((row.enrolment_id.isSome && !env.progress_payload.repeatItems.isEmpty) = true ∧
        ¬ env.repeat_insert_ok = true))) :
    end_session_sync env sid stid db
      = (Except.ok true,
         consume_quota_minutes stid
           (end_session_consume_amount (endSessionDuration env row)) env.now
           (endSessionTxn2Apply env sid stid row
             (updateSessionRow sid
               (endSessionTxn1Update env.now (endSessionDuration env row)) db)),
         ["ended", "summarized"]) := by
  unfold end_session_sync
  rw [hrow]
  dsimp only
  rw [if_neg (by simp [howner]), if_neg (by simp [hgen]), if_neg hnofail]

lemma find_update_list (sid : String) (f : SessionRow → SessionRow)
    (hid : ∀ s, (f s).id = s.id) :
    ∀ l : List SessionRow,
      (l.map (fun s => if s.id == sid then f s else s)).find? (fun s => s.id == sid)
        = (l.find? (fun s => s.id == sid)).map f := by
  intro l
  induction l with
  | nil => rfl
  | cons x xs ih =>
    by_cases hx : (x.id == sid) = true
    · rw [List.map_cons]
      rw [List.find?_cons_of_pos _ (by rw [if_pos hx, hid x]; exact hx)]
      have hR : List.find? (fun s => s.id == sid) (x :: xs) = some x := by
        simp [List.find?_cons, hx]
      rw [hR, if_pos hx]
      rfl
    · rw [List.map_cons]
      rw [List.find?_cons_of_neg _ (by rw [if_neg hx]; exact hx)]
      have hR : List.find? (fun s => s.id == sid) (x :: xs)
          = List.find? (fun s => s.id == sid) xs := by
        simp [List.find?_cons, hx]
      rw [hR]
      exact ih

lemma session_status_of_update (sid : String) (f : SessionRow → SessionRow)
    (hid : ∀ s, (f s).id = s.id) (db : DB) (row : SessionRow)
    (hrow : db.sessions.find? (fun s => s.id == sid) = some row) :
    session_status_of sid (updateSessionRow sid f db) = some ((f row).status) := by
  unfold session_status_of updateSessionRow
  dsimp only
  rw [find_update_list sid f hid db.sessions, hrow]
  rfl

lemma session_duration_of_update (sid : String) (f : SessionRow → SessionRow)
    (hid : ∀ s, (f s).id = s.id) (db : DB) (row : SessionRow)
    (hrow : db.sessions.find? (fun s => s.id == sid) = some row) :
    session_duration_of sid (updateSessionRow sid f db)
      = some ((f row).duration_seconds) := by
  unfold session_duration_of updateSessionRow
  dsimp only
  rw [find_update_list sid f hid db.sessions, hrow]
  rfl

lemma session_status_of_congr (sid : String) (db1 db2 : DB)
    (h : db1.sessions = db2.sessions) :
    session_status_of sid db1 = session_status_of sid db2 := by
  unfold session_status_of
  rw [h]

lemma upsertSummary_frame (sid : String) (p : SummaryPayload) (db : DB) :
    (upsertSummary sid p db).sessions = db.sessions ∧
    (upsertSummary sid p db).progress_snapshots = db.progress_snapshots ∧
    (upsertSummary sid p db).repeat_flags = db.repeat_flags ∧
    (upsertSummary sid p db).usage_credits = db.usage_credits ∧
    (upsertSummary sid p db).parent_student_links = db.parent_student_links ∧
    (upsertSummary sid p db).subscriptions = db.subscriptions := by
  unfold upsertSummary
  split <;> exact ⟨rfl, rfl, rfl, rfl, rfl, rfl⟩

lemma endSessionTxn2Apply_sessions (env : SessionEndEnv) (sid stid : String)
    (row : SessionRow) (db1 : DB) :
    (endSessionTxn2Apply env sid stid row db1).sessions
      = (updateSessionRow sid endSessionSummarizeUpdate
          (upsertSummary sid env.summary_payload db1)).sessions := by
  unfold endSessionTxn2Apply
  rcases row.enrolment_id with _ | eid <;> rfl

lemma endSessionTxn2Apply_summaries (env : SessionEndEnv) (sid stid : String)
    (row : SessionRow) (db1 : DB) :
    (endSessionTxn2Apply env sid stid row db1).session_summaries
      = (upsertSummary sid env.summary_payload db1).session_summaries := by
  unfold endSessionTxn2Apply
  rcases row.enrolment_id with _ | eid <;> rfl

lemma endSessionTxn2Apply_billing_frame (env : SessionEndEnv) (sid stid : String)
    (row : SessionRow) (db1 : DB) :
    (endSessionTxn2Apply env sid stid row db1).usage_credits = db1.usage_credits ∧
    (endSessionTxn2Apply env sid stid row db1).parent_student_links
      = db1.parent_student_links ∧
    (endSessionTxn2Apply env sid stid row db1).subscriptions = db1.subscriptions := by
  unfold endSessionTxn2Apply
  rcases row.enrolment_id with _ | eid <;>
    exact ⟨(upsertSummary_frame sid env.summary_payload db1).2.2.2.1,
           (upsertSummary_frame sid env.summary_payload db1).2.2.2.2.1,
           (upsertSummary_frame sid env.summary_payload db1).2.2.2.2.2⟩

lemma consume_credits_frame (p : String) (N now : Int) (db : DB) :
    (consume_credits p N now db).sessions = db.sessions ∧
    (consume_credits p N now db).session_summaries = db.session_summaries ∧
    (consume_credits p N now db).progress_snapshots = db.progress_snapshots ∧
    (consume_credits p N now db).repeat_flags = db.repeat_flags := by
  unfold consume_credits
  split <;> exact ⟨rfl, rfl, rfl, rfl⟩

lemma consume_quota_minutes_frame (sid : String) (N now : Int) (db : DB) :
    (consume_quota_minutes sid N now db).sessions = db.sessions ∧
    (consume_quota_minutes sid N now db).session_summaries = db.session_summaries ∧
    (consume_quota_minutes sid N now db).progress_snapshots = db.progress_snapshots ∧
    (consume_quota_minutes sid N now db).repeat_flags = db.repeat_flags := by
  by_cases hN : N ≤ 0
  · rw [consume_quota_minutes_nonpos sid N now db hN]
    exact ⟨rfl, rfl, rfl, rfl⟩
  by_cases hsub : ((sid :: parent_profile_ids_for_student sid db).any
      (fun pid => (active_subscription_for_profile pid db).isSome)) = true
  · rw [consume_quota_minutes_sub_noop sid N now db hN hsub]
    exact ⟨rfl, rfl, rfl, rfl⟩
  rw [consume_quota_minutes_else sid N now db hN hsub]
  rcases hb : (best_credit_candidate now db
      (sid :: parent_profile_ids_for_student sid db)).1 with _ | p
  · exact ⟨rfl, rfl, rfl, rfl⟩
  · dsimp only
    split
    · exact consume_credits_frame p N now db
    · exact ⟨rfl, rfl, rfl, rfl⟩

lemma consume_quota_minutes_usage_only (sid : String) (N now : Int) (dbx db : DB)
    (hl : dbx.parent_student_links = db.parent_student_links)
    (hs : dbx.subscriptions = db.subscriptions)
    (hu : dbx.usage_credits = db.usage_credits) :
    (consume_quota_minutes sid N now dbx).usage_credits
      = (consume_quota_minutes sid N now db).usage_credits := by
  have h1 : parent_profile_ids_for_student sid dbx = parent_profile_ids_for_student sid db := by
    unfold parent_profile_ids_for_student
    rw [hl]
  have h2 : ∀ pid, active_subscription_for_profile pid dbx
      = active_subscription_for_profile pid db := by
    intro pid
    unfold active_subscription_for_profile
    rw [hs]
  have h3 : ∀ pid, credits_remaining_for_profile pid now dbx
      = credits_remaining_for_profile pid now db := by
    intro pid
    unfold credits_remaining_for_profile
    rw [hu]
  have h4 : ∀ p, (consume_credits p N now dbx).usage_credits
      = (consume_credits p N now db).usage_credits := by
    intro p
    unfold consume_credits
    split
    · exact hu
    · dsimp only
      rw [hu]
  by_cases hN : N ≤ 0
  · rw [consume_quota_minutes_nonpos sid N now dbx hN,
      consume_quota_minutes_nonpos sid N now db hN, hu]
  have hany : ((sid :: parent_profile_ids_for_student sid dbx).any
      (fun pid => (active_subscription_for_profile pid dbx).isSome))
      = ((sid :: parent_profile_ids_for_student sid db).any
      (fun pid => (active_subscription_for_profile pid db).isSome)) := by
    rw [h1]
    simp only [h2]
  have hbest : best_credit_candidate now dbx (sid :: parent_profile_ids_for_student sid dbx)
      = best_credit_candidate now db (sid :: parent_profile_ids_for_student sid db) := by
    unfold best_credit_candidate
    rw [h1]
    simp only [h3]
  by_cases hsub : ((sid :: parent_profile_ids_for_student sid db).any
      (fun pid => (active_subscription_for_profile pid db).isSome)) = true
  · rw [consume_quota_minutes_sub_noop sid N now dbx hN (by rw [hany]; exact hsub),
      consume_quota_minutes_sub_noop sid N now db hN hsub, hu]
  · rw [consume_quota_minutes_else sid N now dbx hN (by rw [hany]; exact hsub),
      consume_quota_minutes_else sid N now db hN hsub, hbest]
    rcases hb : (best_credit_candidate now db
        (sid :: parent_profile_ids_for_student sid db)).1 with _ | p
    · exact hu
    · dsimp only
      split
      · exact h4 p
      · exact hu

/-- A live session with an enrolment, owned by a payer holding a fifty
minute credit grant. -/
def dbC2 : DB :=
  ⟨[], [], [],
   [⟨"s1", "u1", some 7, 3, "live", some 100, none, none⟩],
   [], [⟨1, "u1", 50, none, 0⟩], [], [], [], [], []⟩

/-- A session-end run in which the progress-snapshot insert fails while
generation and the summary upsert succeed. -/
def envC2fail : SessionEndEnv :=
  ⟨700, true, true, false, true, ⟨"sum", [], []⟩, ⟨(3 : ℚ) / 5, [], [], [], []⟩⟩

/-- A session-end run in which every step succeeds. -/
def envC2ok : SessionEndEnv :=
  ⟨700, true, true, true, true, ⟨"sum", [], []⟩, ⟨(3 : ℚ) / 5, [], [], [], []⟩⟩

/-- C2 counterexample: when the progress-snapshot insert fails, the
already-written summary and the 'summarized' status are rolled back with
the rest of the transaction — the session is left 'ended' with no
summary row — and ledger consumption is skipped (the credit grant is
untouched), contradicting the claimed independent commits. -/
theorem claim_C2_counterexample :
    (end_session_sync envC2fail "s1" "u1" dbC2).2.1.session_summaries = [] ∧
    session_status_of "s1" (end_session_sync envC2fail "s1" "u1" dbC2).2.1 = some "ended" ∧
    session_status_of "s1" (end_session_sync envC2fail "s1" "u1" dbC2).2.1
      ≠ some "summarized" ∧
    (end_session_sync envC2fail "s1" "u1" dbC2).2.1.usage_credits = dbC2.usage_credits := by
  decide

/-- C2 as amended: the first side-effect group (status 'ended', ended_at,
final duration) is committed on its own, so a failure in summarization
or in the post-session transaction still leaves the session 'ended' with
its final duration; but the summary upsert, the 'summarized' status
update, the progress-snapshot insert and the repeat-flag inserts share
one transaction — a failure in any of them rolls the whole group back,
summary included — and ledger consumption runs only after that
transaction commits, so a summary/progress write failure does block
consumption. -/
theorem claim_C2_amended :
    ∀ (env : SessionEndEnv) (sid stid : String) (db : DB) (row : SessionRow),
      db.sessions.find? (fun s => s.id == sid) = some row →
      row.student_id = stid →
      ((¬ env.generation_ok = true →
         (end_session_sync env sid stid db).1 = Except.error "summary_generation_failed" ∧
         session_status_of sid (end_session_sync env sid stid db).2.1 = some "ended" ∧
         session_duration_of sid (end_session_sync env sid stid db).2.1
           = some (some (endSessionDuration env row)) ∧
         (end_session_sync env sid stid db).2.1.session_summaries = db.session_summaries ∧
         (end_session_sync env sid stid db).2.1.progress_snapshots = db.progress_snapshots ∧
         (end_session_sync env sid stid db).2.1.repeat_flags = db.repeat_flags ∧
         (end_session_sync env sid stid db).2.1.usage_credits = db.usage_credits) ∧
       (env.generation_ok = true →
        (¬ env.summary_upsert_ok = true ∨
          (row.enrolment_id.isSome = true ∧ ¬ env.progress_insert_ok = true) ∨
          ((row.enrolment_id.isSome && !env.progress_payload.repeatItems.isEmpty) = true ∧
            ¬ env.repeat_insert_ok = true)) →
         (end_session_sync env sid stid db).1 = Except.error "post_session_write_failed" ∧
         session_status_of sid (end_session_sync env sid stid db).2.1 = some "ended" ∧
         session_duration_of sid (end_session_sync env sid stid db).2.1
           = some (some (endSessionDuration env row)) ∧
         (end_session_sync env sid stid db).2.1.session_summaries = db.session_summaries ∧
         (end_session_sync env sid stid db).2.1.progress_snapshots = db.progress_snapshots ∧
         (end_session_sync env sid stid db).2.1.repeat_flags = db.repeat_flags ∧
         (end_session_sync env sid stid db).2.1.usage_credits = db.usage_credits) ∧
       (env.generation_ok = true → env.summary_upsert_ok = true →
        env.progress_insert_ok = true → env.repeat_insert_ok = true →
         (end_session_sync env sid stid db).1 = Except.ok true ∧
         session_status_of sid (end_session_sync env sid stid db).2.1 = some "summarized" ∧
         (end_session_sync env sid stid db).2.1.session_summaries
           = (upsertSummary sid env.summary_payload
               (updateSessionRow sid
                 (endSessionTxn1Update env.now (endSessionDuration env row))
                 db)).session_summaries ∧
         (end_session_sync env sid stid db).2.1.usage_credits
           = (consume_quota_minutes stid
               (end_session_consume_amount (endSessionDuration env row)) env.now
               db).usage_credits)) := by
  intro env sid stid db row hrow howner
  refine ⟨?_, ?_, ?_⟩
  · intro hgen
    rw [end_session_sync_gen_fail env sid stid db row hrow howner hgen]
    dsimp only
    refine ⟨rfl, ?_, ?_, rfl, rfl, rfl, rfl⟩
    · rw [session_status_of_update sid
        (endSessionTxn1Update env.now (endSessionDuration env row)) (fun s => rfl) db row hrow]
      rfl
    · rw [session_duration_of_update sid
        (endSessionTxn1Update env.now (endSessionDuration env row)) (fun s => rfl) db row hrow]
      rfl
  · intro hgen hfail
    rw [end_session_sync_txn2_fail env sid stid db row hrow howner hgen hfail]
    dsimp only
    refine ⟨rfl, ?_, ?_, rfl, rfl, rfl, rfl⟩
    · rw [session_status_of_update sid
        (endSessionTxn1Update env.now (endSessionDuration env row)) (fun s => rfl) db row hrow]
      rfl
    · rw [session_duration_of_update sid
        (endSessionTxn1Update env.now (endSessionDuration env row)) (fun s => rfl) db row hrow]
      rfl
  · intro hgen hsum hprog hrep
    rw [end_session_sync_ok env sid stid db row hrow howner hgen
      (by simp [hsum, hprog, hrep])]
    dsimp only
    refine ⟨rfl, ?_, ?_, ?_⟩
    · rw [session_status_of_congr _ _ _
        (consume_quota_minutes_frame stid _ env.now _).1]
      rw [session_status_of_congr _ _ _
        (endSessionTxn2Apply_sessions env sid stid row _)]
      have hrow1 : (upsertSummary sid env.summary_payload
          (updateSessionRow sid
            (endSessionTxn1Update env.now (endSessionDuration env row)) db)).sessions.find?
            (fun s => s.id == sid)
          = some (endSessionTxn1Update env.now (endSessionDuration env row) row) := by
        rw [(upsertSummary_frame sid env.summary_payload _).1]
        show (List.map _ db.sessions).find? _ = _
        rw [find_update_list sid
          (endSessionTxn1Update env.now (endSessionDuration env row)) (fun s => rfl)
          db.sessions, hrow]
        rfl
      rw [session_status_of_update sid endSessionSummarizeUpdate (fun s => rfl) _ _ hrow1]
      rfl
    · rw [(consume_quota_minutes_frame stid _ env.now _).2.1]
      rw [endSessionTxn2Apply_summaries]
    · exact consume_quota_minutes_usage_only stid _ env.now _ db
        (endSessionTxn2Apply_billing_frame env sid stid row _).2.1
        (endSessionTxn2Apply_billing_frame env sid stid row _).2.2
        (endSessionTxn2Apply_billing_frame env sid stid row _).1

/-- Witness for C2 at a concrete input: the all-success run of the dbC2
session ends with status summarized and the credits consumed. -/
theorem claim_C2_witness :
    (end_session_sync envC2ok "s1" "u1" dbC2).1 = Except.ok true ∧
    session_status_of "s1" (end_session_sync envC2ok "s1" "u1" dbC2).2.1
      = some "summarized" ∧
    (end_session_sync envC2ok "s1" "u1" dbC2).2.1.session_summaries
      = (upsertSummary "s1" envC2ok.summary_payload
          (updateSessionRow "s1"
            (endSessionTxn1Update envC2ok.now
              (endSessionDuration envC2ok
                ⟨"s1", "u1", some 7, 3, "live", some 100, none, none⟩))
            dbC2)).session_summaries ∧
    (end_session_sync envC2ok "s1" "u1" dbC2).2.1.usage_credits
      = (consume_quota_minutes "u1"
          (end_session_consume_amount
            (endSessionDuration envC2ok
              ⟨"s1", "u1", some 7, 3, "live", some 100, none, none⟩)) envC2ok.now
          dbC2).usage_credits :=
  (claim_C2_amended envC2ok "s1" "u1" dbC2
      ⟨"s1", "u1", some 7, 3, "live", some 100, none, none⟩
      (by decide) (by decide)).2.2 rfl rfl rfl rfl

lemma start_session_agent_trace (env : StartAgentEnv) (req : StartAgentRequest) (db : DB) :
    (start_session_agent env req db).2.2 = [] := by
  unfold start_session_agent
  rcases hf : get_session_by_id_and_student req.sessionId req.studentId db with _ | row
  · rfl
  · dsimp only
    split
    · rfl
    · split
      · rfl
      · split
        · rfl
        · rename_i hb
          have hbinds : run_agent_session_call_binds = false := by decide
          rw [hbinds] at hb
          simp at hb

/-- A pending session with no enrolment. -/
def dbC6 : DB :=
  ⟨[], [], [], [⟨"s2", "u1", none, 3, "pending", none, none, none⟩],
   [], [], [], [], [], [], []⟩

/-- C6 counterexample: ending an already-summarized session commits a
status write of 'ended' over 'summarized' (the first transaction of
_end_session_sync has no status guard), a backward move in the
lifecycle order. -/
theorem claim_C6_counterexample :
    session_status_of "s2" (end_session_sync envC2ok "s2" "u1" dbC6).2.1
      = some "summarized" ∧
    ((end_session_sync envC2ok "s2" "u1"
        (end_session_sync envC2ok "s2" "u1" dbC6).2.1).2.2).head? = some "ended" ∧
    session_status_rank "ended" < session_status_rank "summarized" := by
  decide

/-- C6 as amended: the session INSERT writes status 'pending';
start-agent commits no status write at all (its unconditional update to
'live' is unreachable because the agent handoff raises TypeError first);
and the status writes of end, prefixed by the session's current status,
are monotone in the lifecycle order provided end is not invoked on an
already-summarized session — invoked on a summarized session, end first
rewrites the status backward to 'ended' before re-summarizing. -/
theorem claim_C6_amended :
    create_session_insert_status = "pending" ∧
    (∀ (env : StartAgentEnv) (req : StartAgentRequest) (db : DB),
       (start_session_agent env req db).2.2 = []) ∧
    (∀ (env : SessionEndEnv) (sid stid : String) (db : DB) (row : SessionRow),
       db.sessions.find? (fun s => s.id == sid) = some row →
       row.student_id = stid →
       (row.status = "pending" ∨ row.status = "live" ∨ row.status = "ended") →
       List.Chain' (fun a b => session_status_rank a ≤ session_status_rank b)
         (row.status :: (end_session_sync env sid stid db).2.2)) := by
  refine ⟨rfl, start_session_agent_trace, ?_⟩
  intro env sid stid db row hrow howner hst
  have hrank : session_status_rank row.status ≤ 2 := by
    rcases hst with h | h | h <;> rw [h] <;> decide
  have hrank2 : session_status_rank "ended" = 2 := rfl
  have hrank3 : session_status_rank "summarized" = 3 := rfl
  by_cases hgen : env.generation_ok = true
  · by_cases hfail : (¬ env.summary_upsert_ok = true ∨
        (row.enrolment_id.isSome = true ∧ ¬ env.progress_insert_ok = true) ∨
        ((row.enrolment_id.isSome && !env.progress_payload.repeatItems.isEmpty) = true ∧
          ¬ env.repeat_insert_ok = true))
    · rw [end_session_sync_txn2_fail env sid stid db row hrow howner hgen hfail]
      refine List.chain'_cons.2 ⟨?_, List.chain'_singleton _⟩
      omega
    · rw [end_session_sync_ok env sid stid db row hrow howner hgen hfail]
      refine List.chain'_cons.2 ⟨?_, List.chain'_cons.2 ⟨?_, List.chain'_singleton _⟩⟩
      · omega
      · omega
  · rw [end_session_sync_gen_fail env sid stid db row hrow howner hgen]
    refine List.chain'_cons.2 ⟨?_, List.chain'_singleton _⟩
    omega

/-- Witness for C6 at a concrete input: ending the pending dbC6 session
produces the monotone status sequence pending, ended, summarized. -/
theorem claim_C6_witness :
    List.Chain' (fun a b => session_status_rank a ≤ session_status_rank b)
      ("pending" :: (end_session_sync envC2ok "s2" "u1" dbC6).2.2) :=
  claim_C6_amended.2.2 envC2ok "s2" "u1" dbC6
    ⟨"s2", "u1", none, 3, "pending", none, none, none⟩
    (by decide) (by decide) (Or.inl rfl)

/-- A pending session with an enrolment and no tutor config, so the
documented persona defaults apply. -/
def dbC5 : DB :=
  ⟨[], [], [], [⟨"s1", "u1", some 7, 3, "pending", none, none, none⟩],
   [], [], [], [], [], [], []⟩

/-- A start-agent environment with all external configuration present. -/
def envC5 : StartAgentEnv := ⟨5, true, true⟩

/-- A start-agent request for the owned dbC5 session. -/
def reqC5 : StartAgentRequest := ⟨"s1", "u1", none⟩

/-- A start-agent request for a session id that does not exist. -/
def reqC5missing : StartAgentRequest := ⟨"nope", "u1", none⟩

/-- C5: the main.py call to run_agent_session passes keyword arguments
(student_id, enrolment_id, tutor_name, personality_prompt,
tutor_voice_model, tutor_tts_speed, repeat_flags, recommended_focus)
that the agent_worker.py signature does not accept, so for every
existing owned session the handoff raises TypeError before the
background task is created and the status update to 'live' is never
reached; the documented persona defaults are computed first, and a
missing session still fails with session_not_found. -/
theorem claim_C5_start_agent_bug :
    run_agent_session_call_binds = false ∧
    (start_session_agent envC5 reqC5 dbC5).1
      = Except.error "type_error_unexpected_keyword_argument" ∧
    session_status_of "s1" (start_session_agent envC5 reqC5 dbC5).2.1 = some "pending" ∧
    (start_session_agent envC5 reqC5 dbC5).2.2 = [] ∧
    start_agent_join_persona (load_tutor_runtime_context "u1" (some 7) dbC5).1
        reqC5.deepgramTtsModel
      = ⟨"TutorBot", "Be warm, concise, and Socratic.", "aura-2-draco-en", "1.0"⟩ ∧
    (start_session_agent envC5 reqC5missing dbC5).1 = Except.error "session_not_found" :=
  ⟨rfl, rfl, rfl, rfl, rfl, rfl⟩

/-- A retrieval store with a single chunk scoped to a different course
and topic than the one queried. -/
def ragDbC9 : RagDB := ⟨[⟨1, 1, 9, 9, "other chunk", [0]⟩], [⟨1, "Doc", "path"⟩]⟩

/-- A retrieval environment with constant embedding and distance. -/
def ragEnvC9 : RagEnv := ⟨fun _ => [0], fun _ _ => 0⟩

/-- C9: retrieve on a (course, topic) scope with zero ingested chunks
returns the empty list without error and the references fallback string
is the documented one, but the turn pipeline does not complete without
throwing: on_user_turn_completed calls build_system_prompt with only the
three positional arguments while prompts.py requires four keyword-only
parameters with no defaults, so Python raises TypeError on every user
turn before the context rewrite. -/
theorem claim_C9_retrieval_bug :
    retrieve_chunks ragEnvC9 "query" 1 2 5 ragDbC9 = [] ∧
    format_references [] = "No strong matches found. Ask clarifying questions." ∧
    build_system_prompt_call_binds = false ∧
    on_user_turn_completed ragEnvC9 1 2 ragDbC9
        [⟨"system", "old"⟩, ⟨"user", "hi"⟩] ⟨"user", "hi"⟩
      = Except.error "type_error_missing_required_keyword_only_arguments" :=
  ⟨rfl, rfl, rfl, rfl⟩
